import Mathlib

/-! Formal model of the real-time pose pipeline of `src/app/(app)/vision-ondevice.tsx`
and the tracking simulator of `src/__tests__/performance.benchmark.test.ts`:
the OKS similarity metric, the temporal smoothing filter, the multi-person
identity tracker and the lift form-analysis layer.  JavaScript numbers are
modelled as real numbers; all functions are total.
-/

noncomputable section

namespace Vision

/-- Keypoint record `{ x, y, score }` (vision-ondevice.tsx, e.g. line 50). -/
structure Keypoint where
  x : ℝ
  y : ℝ
  score : ℝ

/-- Source line 24. -/
def DETECTION_THRESHOLD : ℝ := 0.3

/-- Source line 28: `MIN_CONFIDENCE = DETECTION_THRESHOLD`. -/
def MIN_CONFIDENCE : ℝ := DETECTION_THRESHOLD

/-- Source line 29. -/
def CAMERA_FPS : ℝ := 30

/-- Source line 30. -/
def FRAME_SKIP_INTERVAL : ℝ := 2

/-- Source line 31. -/
def MIN_CUTOFF : ℝ := 0.15

/-- Source line 32. -/
def BETA : ℝ := 0.007

/-- Source line 33. -/
def DERIVATE_CUTOFF : ℝ := 1.0

/-- Source line 37. -/
def OKS_KEYPOINT_THRESHOLD : ℝ := 0.3

/-- Source lines 38-41: the 17-entry per-keypoint fall-off table. -/
def OKS_KEYPOINT_FALLOFF : List ℝ :=
  [0.026, 0.025, 0.025, 0.035, 0.035, 0.079, 0.079, 0.072, 0.072, 0.062,
   0.062, 0.107, 0.107, 0.087, 0.087, 0.089, 0.089]

/-- Source line 42. -/
def OKS_MIN_KEYPOINTS : ℕ := 4

/-- Source line 43. -/
def TRACKING_MIN_SIMILARITY : ℝ := 0.15

/-- Source line 44 (milliseconds). -/
def TRACKING_MAX_AGE : ℤ := 1000

/-- Source line 45. -/
def TRACKING_MAX_PERSONS : ℕ := 18

/-- The keypoints kept by the loop of `computeKeypointArea` (lines 564-572):
those with `score > OKS_KEYPOINT_THRESHOLD` (strict). -/
def validKeypoints : List Keypoint → List Keypoint
  | [] => []
  | kp :: rest =>
      if OKS_KEYPOINT_THRESHOLD < kp.score then kp :: validKeypoints rest
      else validKeypoints rest

/-- The keypoints kept by the loop of `computeKeypointAreaJS` (lines 631-639):
those with `score >= OKS_KEYPOINT_THRESHOLD`. -/
def validKeypointsJS : List Keypoint → List Keypoint
  | [] => []
  | kp :: rest =>
      if OKS_KEYPOINT_THRESHOLD ≤ kp.score then kp :: validKeypointsJS rest
      else validKeypointsJS rest

/-- Model of `computeKeypointArea` (worklet version, vision-ondevice.tsx lines 555-579).
The source folds `Math.min`/`Math.max` starting from `±Infinity`; over the
reals the fold is started from the first valid keypoint instead, which gives
the same minimum/maximum, and the `validCount === 0` early return (line 574,
result `1e-6`) covers the empty case. -/
def computeKeypointArea (keypoints : List Keypoint) : ℝ :=
  match validKeypoints keypoints with
  | [] => 1e-6
  | v :: vs =>
      let minX := (vs.map Keypoint.x).foldl min v.x
      let maxX := (vs.map Keypoint.x).foldl max v.x
      let minY := (vs.map Keypoint.y).foldl min v.y
      let maxY := (vs.map Keypoint.y).foldl max v.y
      let width := max (maxX - minX) 1e-6
      let height := max (maxY - minY) 1e-6
      width * height

/-- Model of `computeKeypointAreaJS` (vision-ondevice.tsx lines 627-648).  The
`!isFinite(minX)` test (line 641) fires exactly when no keypoint passed the
threshold, since all model inputs are (finite) reals; the fallback is `1`.
Unlike the worklet version there is no `1e-6` floor on width and height. -/
def computeKeypointAreaJS (keypoints : List Keypoint) : ℝ :=
  match validKeypointsJS keypoints with
  | [] => 1
  | v :: vs =>
      let minX := (vs.map Keypoint.x).foldl min v.x
      let maxX := (vs.map Keypoint.x).foldl max v.x
      let minY := (vs.map Keypoint.y).foldl min v.y
      let maxY := (vs.map Keypoint.y).foldl max v.y
      (maxX - minX) * (maxY - minY)

/-- Sigma lookup `OKS_KEYPOINT_FALLOFF[i] || 0.089` (line 612): an
out-of-range index yields `undefined`, hence the `0.089` default; every
in-range table entry is nonzero, so `||` never replaces it. -/
def oksSigma (i : ℕ) : ℝ := OKS_KEYPOINT_FALLOFF.getD i 0.089

/-- The accumulation loop shared by `computeOKSSimilarity` (lines 599-618) and
`computeOKSSimilarityJS` (lines 662-680): pairs where either score is below
`OKS_KEYPOINT_THRESHOLD` are skipped; otherwise the Gaussian kernel
`exp(-d^2 / (2 * area * (2 * sigma_i)^2))` is accumulated together with the
count of valid pairs.  Returns `(oksSum, validKeypointCount)`. -/
def oksAccum (area : ℝ) : ℕ → List Keypoint → List Keypoint → ℝ × ℕ
  | i, kp1 :: r1, kp2 :: r2 =>
      let rest := oksAccum area (i + 1) r1 r2
      if kp1.score < OKS_KEYPOINT_THRESHOLD ∨ kp2.score < OKS_KEYPOINT_THRESHOLD then rest
      else
        let dx := kp1.x - kp2.x
        let dy := kp1.y - kp2.y
        let dSquared := dx * dx + dy * dy
        let sigma := oksSigma i
        let x := 2 * sigma
        (rest.1 + Real.exp (-dSquared / (2 * area * x * x)), rest.2 + 1)
  | _, _, _ => (0, 0)

/-- Model of `computeOKSSimilarity` (worklet version, vision-ondevice.tsx lines
585-625): length mismatch returns 0; fewer than `OKS_MIN_KEYPOINTS` valid
pairs returns 0; otherwise the mean per-keypoint Gaussian similarity. -/
def computeOKSSimilarity (person1Keypoints person2Keypoints : List Keypoint) : ℝ :=
  if person1Keypoints.length ≠ person2Keypoints.length then 0
  else
    let area := computeKeypointArea person2Keypoints + 1e-6
    let sc := oksAccum area 0 person1Keypoints person2Keypoints
    if sc.2 < OKS_MIN_KEYPOINTS then 0 else sc.1 / sc.2

/-- Model of `computeOKSSimilarityJS` (vision-ondevice.tsx lines 650-687, identical
copy in performance.benchmark.test.ts lines 424-461); differs from the
worklet version only in the area computation. -/
def computeOKSSimilarityJS (person1Keypoints person2Keypoints : List Keypoint) : ℝ :=
  if person1Keypoints.length ≠ person2Keypoints.length then 0
  else
    let area := computeKeypointAreaJS person2Keypoints + 1e-6
    let sc := oksAccum area 0 person1Keypoints person2Keypoints
    if sc.2 < OKS_MIN_KEYPOINTS then 0 else sc.1 / sc.2

/-! Basic facts about the OKS components. -/

lemma falloff_pos : ∀ x ∈ OKS_KEYPOINT_FALLOFF, (0:ℝ) < x := by
  intro x hx
  simp only [OKS_KEYPOINT_FALLOFF, List.mem_cons, List.not_mem_nil, or_false] at hx
  rcases hx with rfl | rfl | rfl | rfl | rfl | rfl | rfl | rfl | rfl | rfl | rfl | rfl | rfl | rfl | rfl | rfl | rfl <;> norm_num

lemma oksSigma_pos (i : ℕ) : 0 < oksSigma i := by
  unfold oksSigma List.getD
  cases h : OKS_KEYPOINT_FALLOFF.get? i with
  | none => norm_num
  | some x => simpa using falloff_pos x (List.get?_mem h)

lemma foldl_min_le (l : List ℝ) : ∀ a : ℝ, l.foldl min a ≤ a := by
  induction l with
  | nil => intro a; simp
  | cons x xs ih => intro a; exact le_trans (ih (min a x)) (min_le_left a x)

lemma le_foldl_max (l : List ℝ) : ∀ a : ℝ, a ≤ l.foldl max a := by
  induction l with
  | nil => intro a; simp
  | cons x xs ih => intro a; exact le_trans (le_max_left a x) (ih (max a x))

lemma computeKeypointArea_pos (kps : List Keypoint) : 0 < computeKeypointArea kps := by
  unfold computeKeypointArea
  cases validKeypoints kps with
  | nil => norm_num
  | cons v vs =>
      have h1 : (0:ℝ) < max ((vs.map Keypoint.x).foldl max v.x - (vs.map Keypoint.x).foldl min v.x) 1e-6 :=
        lt_of_lt_of_le (by norm_num) (le_max_right _ _)
      have h2 : (0:ℝ) < max ((vs.map Keypoint.y).foldl max v.y - (vs.map Keypoint.y).foldl min v.y) 1e-6 :=
        lt_of_lt_of_le (by norm_num) (le_max_right _ _)
      exact mul_pos h1 h2

lemma computeKeypointAreaJS_nonneg (kps : List Keypoint) : 0 ≤ computeKeypointAreaJS kps := by
  unfold computeKeypointAreaJS
  cases validKeypointsJS kps with
  | nil => norm_num
  | cons v vs =>
      have hx : (vs.map Keypoint.x).foldl min v.x ≤ (vs.map Keypoint.x).foldl max v.x :=
        le_trans (foldl_min_le _ v.x) (le_foldl_max _ v.x)
      have hy : (vs.map Keypoint.y).foldl min v.y ≤ (vs.map Keypoint.y).foldl max v.y :=
        le_trans (foldl_min_le _ v.y) (le_foldl_max _ v.y)
      exact mul_nonneg (sub_nonneg.mpr hx) (sub_nonneg.mpr hy)

lemma oksAccum_nonneg_le (area : ℝ) (ha : 0 < area) :
    ∀ (p1 : List Keypoint) (i : ℕ) (p2 : List Keypoint),
      0 ≤ (oksAccum area i p1 p2).1 ∧ (oksAccum area i p1 p2).1 ≤ ((oksAccum area i p1 p2).2 : ℝ) := by
  intro p1
  induction p1 with
  | nil => intro i p2; simp [oksAccum]
  | cons kp1 r1 ih =>
      intro i p2
      cases p2 with
      | nil => simp [oksAccum]
      | cons kp2 r2 =>
          obtain ⟨ihl, ihr⟩ := ih (i + 1) r2
          by_cases hskip : kp1.score < OKS_KEYPOINT_THRESHOLD ∨ kp2.score < OKS_KEYPOINT_THRESHOLD
          · simpa [oksAccum, hskip] using ⟨ihl, ihr⟩
          · have hs : (0:ℝ) < oksSigma i := oksSigma_pos i
            have h2s : (0:ℝ) < 2 * oksSigma i := by linarith
            have hden : (0:ℝ) < 2 * area * (2 * oksSigma i) * (2 * oksSigma i) :=
              mul_pos (mul_pos (mul_pos two_pos ha) h2s) h2s
            have hd2 : (0:ℝ) ≤ (kp1.x - kp2.x) * (kp1.x - kp2.x) + (kp1.y - kp2.y) * (kp1.y - kp2.y) :=
              add_nonneg (mul_self_nonneg _) (mul_self_nonneg _)
            have hexp_pos : 0 < Real.exp (-((kp1.x - kp2.x) * (kp1.x - kp2.x) + (kp1.y - kp2.y) * (kp1.y - kp2.y)) / (2 * area * (2 * oksSigma i) * (2 * oksSigma i))) :=
              Real.exp_pos _
            have hexp_le : Real.exp (-((kp1.x - kp2.x) * (kp1.x - kp2.x) + (kp1.y - kp2.y) * (kp1.y - kp2.y)) / (2 * area * (2 * oksSigma i) * (2 * oksSigma i))) ≤ 1 := by
              rw [show (1:ℝ) = Real.exp 0 from (Real.exp_zero).symm]
              apply Real.exp_le_exp.mpr
              apply div_nonpos_of_nonpos_of_nonneg (neg_nonpos_of_nonneg hd2) (le_of_lt hden)
            simp only [oksAccum, hskip, if_false]
            constructor
            · have := add_nonneg ihl (le_of_lt hexp_pos)
              simpa [mul_assoc] using this
            · push_cast
              have := add_le_add ihr hexp_le
              simpa [mul_assoc] using this

lemma validKeypoints_nil_of_low (kps : List Keypoint)
    (h : ∀ kp ∈ kps, kp.score < OKS_KEYPOINT_THRESHOLD) : validKeypoints kps = [] := by
  induction kps with
  | nil => rfl
  | cons kp rest ih =>
      have hkp : kp.score < OKS_KEYPOINT_THRESHOLD := h kp (List.mem_cons_self kp rest)
      have : ¬ OKS_KEYPOINT_THRESHOLD < kp.score := not_lt.mpr (le_of_lt hkp)
      simp only [validKeypoints, this, if_false]
      exact ih fun kp' h' => h kp' (List.mem_cons_of_mem kp h')

lemma validKeypointsJS_nil_of_low (kps : List Keypoint)
    (h : ∀ kp ∈ kps, kp.score < OKS_KEYPOINT_THRESHOLD) : validKeypointsJS kps = [] := by
  induction kps with
  | nil => rfl
  | cons kp rest ih =>
      have hkp : kp.score < OKS_KEYPOINT_THRESHOLD := h kp (List.mem_cons_self kp rest)
      have : ¬ OKS_KEYPOINT_THRESHOLD ≤ kp.score := not_le.mpr hkp
      simp only [validKeypointsJS, this, if_false]
      exact ih fun kp' h' => h kp' (List.mem_cons_of_mem kp h')

lemma oksAccum_left_low (area : ℝ) (p1 : List Keypoint)
    (h : ∀ kp ∈ p1, kp.score < OKS_KEYPOINT_THRESHOLD) :
    ∀ (i : ℕ) (p2 : List Keypoint), oksAccum area i p1 p2 = (0, 0) := by
  induction p1 with
  | nil => intro i p2; cases p2 <;> rfl
  | cons kp1 r1 ih =>
      intro i p2
      cases p2 with
      | nil => rfl
      | cons kp2 r2 =>
          have h1 : kp1.score < OKS_KEYPOINT_THRESHOLD := h kp1 (List.mem_cons_self kp1 r1)
          simp only [oksAccum, h1, true_or, if_true]
          exact ih (fun kp' h' => h kp' (List.mem_cons_of_mem kp1 h')) (i + 1) r2

lemma oksAccum_right_low (area : ℝ) (p2 : List Keypoint)
    (h : ∀ kp ∈ p2, kp.score < OKS_KEYPOINT_THRESHOLD) :
    ∀ (i : ℕ) (p1 : List Keypoint), oksAccum area i p1 p2 = (0, 0) := by
  induction p2 with
  | nil => intro i p1; cases p1 <;> rfl
  | cons kp2 r2 ih =>
      intro i p1
      cases p1 with
      | nil => rfl
      | cons kp1 r1 =>
          have h2 : kp2.score < OKS_KEYPOINT_THRESHOLD := h kp2 (List.mem_cons_self kp2 r2)
          simp only [oksAccum, h2, or_true, if_true]
          exact ih (fun kp' h' => h kp' (List.mem_cons_of_mem kp2 h')) (i + 1) r1

lemma div_count_bounds (s : ℝ) (n : ℕ) (h0 : 0 ≤ s) (h1 : s ≤ n) :
    0 ≤ (if n < OKS_MIN_KEYPOINTS then (0:ℝ) else s / n) ∧
    (if n < OKS_MIN_KEYPOINTS then (0:ℝ) else s / n) ≤ 1 := by
  by_cases hn : n < OKS_MIN_KEYPOINTS
  · simp [hn]
  · have hn4 : OKS_MIN_KEYPOINTS ≤ n := not_lt.mp hn
    have hnpos : (0:ℝ) < n := by
      have : 0 < n := lt_of_lt_of_le (by norm_num [OKS_MIN_KEYPOINTS]) hn4
      exact_mod_cast this
    constructor
    · simp only [hn, if_false]; exact div_nonneg h0 (le_of_lt hnpos)
    · simp only [hn, if_false]; exact (div_le_one hnpos).mpr h1

lemma computeOKSSimilarity_zero_left (p1 p2 : List Keypoint)
    (h : ∀ kp ∈ p1, kp.score < OKS_KEYPOINT_THRESHOLD) : computeOKSSimilarity p1 p2 = 0 := by
  unfold computeOKSSimilarity
  by_cases hlen : p1.length ≠ p2.length
  · rw [if_pos hlen]
  · rw [if_neg hlen]
    simp [oksAccum_left_low _ p1 h 0 p2, OKS_MIN_KEYPOINTS]

lemma computeOKSSimilarity_zero_right (p1 p2 : List Keypoint)
    (h : ∀ kp ∈ p2, kp.score < OKS_KEYPOINT_THRESHOLD) : computeOKSSimilarity p1 p2 = 0 := by
  unfold computeOKSSimilarity
  by_cases hlen : p1.length ≠ p2.length
  · rw [if_pos hlen]
  · rw [if_neg hlen]
    simp [oksAccum_right_low _ p2 h 0 p1, OKS_MIN_KEYPOINTS]

lemma computeOKSSimilarityJS_zero_left (p1 p2 : List Keypoint)
    (h : ∀ kp ∈ p1, kp.score < OKS_KEYPOINT_THRESHOLD) : computeOKSSimilarityJS p1 p2 = 0 := by
  unfold computeOKSSimilarityJS
  by_cases hlen : p1.length ≠ p2.length
  · rw [if_pos hlen]
  · rw [if_neg hlen]
    simp [oksAccum_left_low _ p1 h 0 p2, OKS_MIN_KEYPOINTS]

lemma computeOKSSimilarityJS_zero_right (p1 p2 : List Keypoint)
    (h : ∀ kp ∈ p2, kp.score < OKS_KEYPOINT_THRESHOLD) : computeOKSSimilarityJS p1 p2 = 0 := by
  unfold computeOKSSimilarityJS
  by_cases hlen : p1.length ≠ p2.length
  · rw [if_pos hlen]
  · rw [if_neg hlen]
    simp [oksAccum_right_low _ p2 h 0 p1, OKS_MIN_KEYPOINTS]

lemma oksAccum_self (area : ℝ) : ∀ (P : List Keypoint) (i : ℕ),
    (oksAccum area i P P).1 = ((oksAccum area i P P).2 : ℝ) ∧
    (validKeypoints P).length ≤ (oksAccum area i P P).2 := by
  intro P
  induction P with
  | nil => intro i; simp [oksAccum, validKeypoints]
  | cons kp rest ih =>
      intro i
      obtain ⟨ih1, ih2⟩ := ih (i + 1)
      by_cases hlow : kp.score < OKS_KEYPOINT_THRESHOLD
      · have hskip : kp.score < OKS_KEYPOINT_THRESHOLD ∨ kp.score < OKS_KEYPOINT_THRESHOLD := Or.inl hlow
        have hnotval : ¬ OKS_KEYPOINT_THRESHOLD < kp.score := not_lt.mpr (le_of_lt hlow)
        simp only [oksAccum, validKeypoints, if_pos hskip, if_neg hnotval]
        exact ⟨ih1, ih2⟩
      · have hskip : ¬ (kp.score < OKS_KEYPOINT_THRESHOLD ∨ kp.score < OKS_KEYPOINT_THRESHOLD) := by
          simp [hlow]
        have hterm : Real.exp (-((kp.x - kp.x) * (kp.x - kp.x) + (kp.y - kp.y) * (kp.y - kp.y)) / (2 * area * (2 * oksSigma i) * (2 * oksSigma i))) = 1 := by
          simp
        simp only [oksAccum, validKeypoints, if_neg hskip]
        constructor
        · rw [hterm, ih1]
          push_cast
          ring
        · by_cases hval : OKS_KEYPOINT_THRESHOLD < kp.score
          · rw [if_pos hval]
            simpa using Nat.succ_le_succ ih2
          · rw [if_neg hval]
            exact le_trans ih2 (Nat.le_succ _)

/-- C6: for all (finite, real-valued) input keypoint lists of any lengths, both
`computeOKSSimilarity` and `computeOKSSimilarityJS` return a real number in
the closed interval `[0, 1]` (in the real-number model a returned value is by
construction neither NaN nor infinite), including degenerate cases such as
coincident keypoints, huge coordinates, or all-zero confidence. -/
theorem oks_similarity_bounded (p1 p2 : List Keypoint) :
    0 ≤ computeOKSSimilarity p1 p2 ∧ computeOKSSimilarity p1 p2 ≤ 1 ∧
    0 ≤ computeOKSSimilarityJS p1 p2 ∧ computeOKSSimilarityJS p1 p2 ≤ 1 := by
  have harea : (0:ℝ) < computeKeypointArea p2 + 1e-6 := by
    have := computeKeypointArea_pos p2
    norm_num
    linarith
  have hareaJS : (0:ℝ) < computeKeypointAreaJS p2 + 1e-6 := by
    have := computeKeypointAreaJS_nonneg p2
    norm_num
    linarith
  obtain ⟨hw0, hw1⟩ := oksAccum_nonneg_le _ harea p1 0 p2
  obtain ⟨hj0, hj1⟩ := oksAccum_nonneg_le _ hareaJS p1 0 p2
  obtain ⟨hwa, hwb⟩ := div_count_bounds _ _ hw0 hw1
  obtain ⟨hja, hjb⟩ := div_count_bounds _ _ hj0 hj1
  unfold computeOKSSimilarity computeOKSSimilarityJS
  by_cases hlen : p1.length ≠ p2.length
  · rw [if_pos hlen, if_pos hlen]
    norm_num
  · rw [if_neg hlen, if_neg hlen]
    exact ⟨hwa, hwb, hja, hjb⟩

/-- C8: for every pose `P` with at least `OKS_MIN_KEYPOINTS` (4) keypoints
whose score is strictly above `OKS_KEYPOINT_THRESHOLD` (0.3),
`computeOKSSimilarity P P = 1` exactly (the spec's "approximately 1.0"). -/
theorem oks_similarity_identity (P : List Keypoint)
    (h : 4 ≤ (validKeypoints P).length) : computeOKSSimilarity P P = 1 := by
  unfold computeOKSSimilarity
  rw [if_neg (by simp)]
  obtain ⟨hsum, hcount⟩ := oksAccum_self (computeKeypointArea P + 1e-6) P 0
  have h4 : OKS_MIN_KEYPOINTS ≤ (oksAccum (computeKeypointArea P + 1e-6) 0 P P).2 := by
    unfold OKS_MIN_KEYPOINTS
    exact le_trans h hcount
  have hpos : 0 < (oksAccum (computeKeypointArea P + 1e-6) 0 P P).2 :=
    lt_of_lt_of_le (by norm_num [OKS_MIN_KEYPOINTS]) h4
  have hne : ((oksAccum (computeKeypointArea P + 1e-6) 0 P P).2 : ℝ) ≠ 0 := by
    exact_mod_cast Nat.pos_iff_ne_zero.mp hpos
  rw [if_neg (not_lt.mpr h4), hsum]
  exact div_self hne

/-- A pose with four confidently detected keypoints, used to instantiate the
identity property. -/
def pose4 : List Keypoint := [⟨0, 0, 0.7⟩, ⟨1, 0, 0.7⟩, ⟨0, 1, 0.7⟩, ⟨1, 1, 0.7⟩]

/-- Witness for C8: `pose4` has 4 keypoints above threshold and its
self-similarity is exactly 1. -/
theorem oks_similarity_identity_witness :
    4 ≤ (validKeypoints pose4).length ∧ computeOKSSimilarity pose4 pose4 = 1 := by
  have h : 4 ≤ (validKeypoints pose4).length := by
    norm_num [pose4, validKeypoints, OKS_KEYPOINT_THRESHOLD]
  exact ⟨h, oks_similarity_identity pose4 h⟩

/-- The all-zero-confidence 17-keypoint pose from the spec scenario. -/
def zeroPose : List Keypoint := List.replicate 17 ⟨0, 0, 0⟩

lemma zeroPose_low : ∀ kp ∈ zeroPose, kp.score < OKS_KEYPOINT_THRESHOLD := by
  intro kp hkp
  have := List.eq_of_mem_replicate hkp
  subst this
  norm_num [OKS_KEYPOINT_THRESHOLD]

/-- C3 (amended): if zero keypoints clear `OKS_KEYPOINT_THRESHOLD`, the
worklet `computeKeypointArea` falls back to `1e-6` (not `1`), while
`computeKeypointAreaJS` falls back to `1`; similarity of such a pose against
any pose is `0` in both versions and in both argument orders. -/
theorem keypointArea_fallback (kps : List Keypoint)
    (h : ∀ kp ∈ kps, kp.score < OKS_KEYPOINT_THRESHOLD) :
    computeKeypointArea kps = 1e-6 ∧ computeKeypointAreaJS kps = 1 ∧
    ∀ q, computeOKSSimilarity kps q = 0 ∧ computeOKSSimilarity q kps = 0 ∧
      computeOKSSimilarityJS kps q = 0 ∧ computeOKSSimilarityJS q kps = 0 := by
  refine ⟨?_, ?_, ?_⟩
  · unfold computeKeypointArea
    rw [validKeypoints_nil_of_low kps h]
  · unfold computeKeypointAreaJS
    rw [validKeypointsJS_nil_of_low kps h]
  · intro q
    exact ⟨computeOKSSimilarity_zero_left kps q h, computeOKSSimilarity_zero_right q kps h,
      computeOKSSimilarityJS_zero_left kps q h, computeOKSSimilarityJS_zero_right q kps h⟩

/-- Witness for C3: the all-zero-confidence 17-keypoint pose realizes the
fallbacks and zero similarity. -/
theorem keypointArea_fallback_witness :
    (∀ kp ∈ zeroPose, kp.score < OKS_KEYPOINT_THRESHOLD) ∧
    computeKeypointArea zeroPose = 1e-6 ∧ computeKeypointAreaJS zeroPose = 1 ∧
    computeOKSSimilarity zeroPose zeroPose = 0 := by
  have h := zeroPose_low
  exact ⟨h, (keypointArea_fallback zeroPose h).1, (keypointArea_fallback zeroPose h).2.1,
    ((keypointArea_fallback zeroPose h).2.2 zeroPose).1⟩

/-- Counterexample for C3 as stated: on the all-zero-confidence 17-keypoint
pose, the worklet `computeKeypointArea` does not return the claimed fallback
value 1 (it returns `1e-6`). -/
theorem keypointArea_fallback_counterexample :
    computeKeypointArea zeroPose = 1e-6 ∧ computeKeypointArea zeroPose ≠ 1 := by
  have h1 : computeKeypointArea zeroPose = 1e-6 := by
    unfold computeKeypointArea
    rw [validKeypoints_nil_of_low zeroPose zeroPose_low]
  refine ⟨h1, ?_⟩
  rw [h1]
  norm_num

/-- Uniform translation of every keypoint of a pose by the vector `(vx, vy)`,
scores unchanged (the transformation quantified over in the monotonicity
property of spec section 8). -/
def translatePose (vx vy : ℝ) (P : List Keypoint) : List Keypoint :=
  P.map fun kp => ⟨kp.x + vx, kp.y + vy, kp.score⟩

lemma oksAccum_translate (area vx vy wx wy : ℝ) (ha : 0 < area)
    (hle : vx * vx + vy * vy ≤ wx * wx + wy * wy) :
    ∀ (P : List Keypoint) (i : ℕ),
      (oksAccum area i (translatePose wx wy P) P).2 = (oksAccum area i (translatePose vx vy P) P).2 ∧
      (validKeypoints P).length ≤ (oksAccum area i (translatePose vx vy P) P).2 ∧
      (oksAccum area i (translatePose wx wy P) P).1 ≤ (oksAccum area i (translatePose vx vy P) P).1 ∧
      (vx * vx + vy * vy < wx * wx + wy * wy → 0 < (oksAccum area i (translatePose vx vy P) P).2 →
        (oksAccum area i (translatePose wx wy P) P).1 < (oksAccum area i (translatePose vx vy P) P).1) := by
  intro P
  induction P with
  | nil => intro i; simp [oksAccum, translatePose, validKeypoints]
  | cons kp rest ih =>
      intro i
      obtain ⟨ih1, ih2, ih3, ih4⟩ := ih (i + 1)
      have hD : (0:ℝ) < 2 * area * (2 * oksSigma i) * (2 * oksSigma i) := by
        have hs : (0:ℝ) < oksSigma i := oksSigma_pos i
        have h2s : (0:ℝ) < 2 * oksSigma i := by linarith
        exact mul_pos (mul_pos (mul_pos two_pos ha) h2s) h2s
      have hdv : ((kp.x + vx) - kp.x) * ((kp.x + vx) - kp.x) + ((kp.y + vy) - kp.y) * ((kp.y + vy) - kp.y) = vx * vx + vy * vy := by ring
      have hdw : ((kp.x + wx) - kp.x) * ((kp.x + wx) - kp.x) + ((kp.y + wy) - kp.y) * ((kp.y + wy) - kp.y) = wx * wx + wy * wy := by ring
      have hexp_le : Real.exp (-(wx * wx + wy * wy) / (2 * area * (2 * oksSigma i) * (2 * oksSigma i))) ≤ Real.exp (-(vx * vx + vy * vy) / (2 * area * (2 * oksSigma i) * (2 * oksSigma i))) := by
        apply Real.exp_le_exp.mpr
        rw [div_eq_mul_inv, div_eq_mul_inv]
        exact mul_le_mul_of_nonneg_right (neg_le_neg hle) (inv_nonneg.mpr (le_of_lt hD))
      by_cases hskip : kp.score < OKS_KEYPOINT_THRESHOLD
      · have hsk : kp.score < OKS_KEYPOINT_THRESHOLD ∨ kp.score < OKS_KEYPOINT_THRESHOLD := Or.inl hskip
        have hnotval : ¬ OKS_KEYPOINT_THRESHOLD < kp.score := not_lt.mpr (le_of_lt hskip)
        simp only [translatePose, List.map_cons, oksAccum, validKeypoints, if_pos hsk, if_neg hnotval]
        simp only [translatePose] at ih1 ih2 ih3 ih4
        exact ⟨ih1, ih2, ih3, ih4⟩
      · have hsk : ¬ (kp.score < OKS_KEYPOINT_THRESHOLD ∨ kp.score < OKS_KEYPOINT_THRESHOLD) := by
          simp [hskip]
        simp only [translatePose, List.map_cons, oksAccum, validKeypoints, if_neg hsk]
        simp only [translatePose] at ih1 ih2 ih3 ih4
        rw [hdv, hdw]
        refine ⟨by rw [ih1], ?_, ?_, ?_⟩
        · by_cases hval : OKS_KEYPOINT_THRESHOLD < kp.score
          · rw [if_pos hval]
            simpa using Nat.succ_le_succ ih2
          · rw [if_neg hval]
            exact le_trans ih2 (Nat.le_succ _)
        · exact add_le_add ih3 hexp_le
        · intro hlt _
          have hexp_lt : Real.exp (-(wx * wx + wy * wy) / (2 * area * (2 * oksSigma i) * (2 * oksSigma i))) < Real.exp (-(vx * vx + vy * vy) / (2 * area * (2 * oksSigma i) * (2 * oksSigma i))) := by
            apply Real.exp_lt_exp.mpr
            rw [div_eq_mul_inv, div_eq_mul_inv]
            exact mul_lt_mul_of_pos_right (neg_lt_neg hlt) (inv_pos.mpr hD)
          exact add_lt_add_of_le_of_lt ih3 hexp_lt

/-- C9: for a reference pose `P` with at least 4 keypoints above threshold,
translating `P` uniformly by `t * (dx, dy)` with `(dx, dy)` a unit vector
makes `computeOKSSimilarity`, taken against `P`, strictly decrease as the
translation magnitude `t` increases (for `0 ≤ t1 < t2`). -/
theorem oks_translation_monotone (P : List Keypoint) (dx dy t1 t2 : ℝ)
    (hdir : dx * dx + dy * dy = 1) (h0 : 0 ≤ t1) (h12 : t1 < t2)
    (hP : 4 ≤ (validKeypoints P).length) :
    computeOKSSimilarity (translatePose (t2 * dx) (t2 * dy) P) P <
      computeOKSSimilarity (translatePose (t1 * dx) (t1 * dy) P) P := by
  have ht : t1 * t1 < t2 * t2 := mul_self_lt_mul_self h0 h12
  have e1 : (t1 * dx) * (t1 * dx) + (t1 * dy) * (t1 * dy) = t1 * t1 * (dx * dx + dy * dy) := by ring
  have e2 : (t2 * dx) * (t2 * dx) + (t2 * dy) * (t2 * dy) = t2 * t2 * (dx * dx + dy * dy) := by ring
  have hmag_lt : (t1 * dx) * (t1 * dx) + (t1 * dy) * (t1 * dy) < (t2 * dx) * (t2 * dx) + (t2 * dy) * (t2 * dy) := by
    rw [e1, e2, hdir, mul_one, mul_one]
    exact ht
  have hmag_le : (t1 * dx) * (t1 * dx) + (t1 * dy) * (t1 * dy) ≤ (t2 * dx) * (t2 * dx) + (t2 * dy) * (t2 * dy) :=
    le_of_lt hmag_lt
  have harea : (0:ℝ) < computeKeypointArea P + 1e-6 := by
    have := computeKeypointArea_pos P
    norm_num
    linarith
  obtain ⟨hcnt, hge, hle, hstrict⟩ :=
    oksAccum_translate (computeKeypointArea P + 1e-6) (t1 * dx) (t1 * dy) (t2 * dx) (t2 * dy) harea hmag_le P 0
  have hn4 : OKS_MIN_KEYPOINTS ≤ (oksAccum (computeKeypointArea P + 1e-6) 0 (translatePose (t1 * dx) (t1 * dy) P) P).2 := by
    unfold OKS_MIN_KEYPOINTS
    exact le_trans hP hge
  have hnpos : 0 < (oksAccum (computeKeypointArea P + 1e-6) 0 (translatePose (t1 * dx) (t1 * dy) P) P).2 :=
    lt_of_lt_of_le (by norm_num [OKS_MIN_KEYPOINTS]) hn4
  have hnr : (0:ℝ) < ((oksAccum (computeKeypointArea P + 1e-6) 0 (translatePose (t1 * dx) (t1 * dy) P) P).2 : ℝ) := by
    exact_mod_cast hnpos
  have hlen2 : ¬((translatePose (t2 * dx) (t2 * dy) P).length ≠ P.length) := by
    simp [translatePose]
  have hlen1 : ¬((translatePose (t1 * dx) (t1 * dy) P).length ≠ P.length) := by
    simp [translatePose]
  have hn4w : OKS_MIN_KEYPOINTS ≤ (oksAccum (computeKeypointArea P + 1e-6) 0 (translatePose (t2 * dx) (t2 * dy) P) P).2 :=
    le_trans hn4 (le_of_eq hcnt.symm)
  unfold computeOKSSimilarity
  rw [if_neg hlen2, if_neg hlen1, if_neg (not_lt.mpr hn4w), if_neg (not_lt.mpr hn4)]
  rw [hcnt, div_eq_mul_inv, div_eq_mul_inv]
  exact mul_lt_mul_of_pos_right (hstrict hmag_lt hnpos) (inv_pos.mpr hnr)

/-- Witness for C9: translating `pose4` by one unit along the x axis yields a
strictly smaller similarity than not translating it at all. -/
theorem oks_translation_monotone_witness :
    (1:ℝ) * 1 + 0 * 0 = 1 ∧ (0:ℝ) ≤ 0 ∧ (0:ℝ) < 1 ∧ 4 ≤ (validKeypoints pose4).length ∧
    computeOKSSimilarity (translatePose (1 * 1) (1 * 0) pose4) pose4 <
      computeOKSSimilarity (translatePose (0 * 1) (0 * 0) pose4) pose4 := by
  have h4 : 4 ≤ (validKeypoints pose4).length := by
    norm_num [pose4, validKeypoints, OKS_KEYPOINT_THRESHOLD]
  exact ⟨by norm_num, le_refl 0, by norm_num, h4,
    oks_translation_monotone pose4 1 0 0 1 (by norm_num) (le_refl 0) (by norm_num) h4⟩

/-- First pose of the asymmetry instance: four confident keypoints spanning a
narrow bounding box. -/
def poseA10 : List Keypoint := [⟨0, 0, 1⟩, ⟨1, 0, 1⟩, ⟨2, 0, 1⟩, ⟨3, 0, 1⟩]

/-- Second pose of the asymmetry instance: the same keypoints spread twice as
wide, so its bounding-box area (the OKS normalizer) is larger. -/
def poseB10 : List Keypoint := [⟨1, 0, 1⟩, ⟨3, 0, 1⟩, ⟨5, 0, 1⟩, ⟨7, 0, 1⟩]

/-- C10: `computeOKSSimilarity` is not symmetric, because the normalizing
area comes from the second (reference) pose only: the same-length poses
`poseA10` and `poseB10`, each with at least 4 keypoints above threshold,
give different similarities in the two argument orders. -/
theorem oks_not_symmetric :
    4 ≤ (validKeypoints poseA10).length ∧ 4 ≤ (validKeypoints poseB10).length ∧
    poseA10.length = poseB10.length ∧
    computeOKSSimilarity poseA10 poseB10 ≠ computeOKSSimilarity poseB10 poseA10 := by
  refine ⟨?_, ?_, ?_, ?_⟩
  · norm_num [poseA10, validKeypoints, OKS_KEYPOINT_THRESHOLD]
  · norm_num [poseB10, validKeypoints, OKS_KEYPOINT_THRESHOLD]
  · norm_num [poseA10, poseB10]
  · have hA : computeKeypointArea poseA10 = 3e-6 := by
      norm_num [computeKeypointArea, validKeypoints, poseA10, OKS_KEYPOINT_THRESHOLD, min_def, max_def]
    have hB : computeKeypointArea poseB10 = 6e-6 := by
      norm_num [computeKeypointArea, validKeypoints, poseB10, OKS_KEYPOINT_THRESHOLD, min_def, max_def]
    have hlt : computeOKSSimilarity poseB10 poseA10 < computeOKSSimilarity poseA10 poseB10 := by
      have hcBA : ¬((oksAccum (computeKeypointArea poseA10 + 1e-6) 0 poseB10 poseA10).2 < OKS_MIN_KEYPOINTS) := by
        norm_num [oksAccum, poseA10, poseB10, OKS_KEYPOINT_THRESHOLD, OKS_MIN_KEYPOINTS]
      have hcAB : ¬((oksAccum (computeKeypointArea poseB10 + 1e-6) 0 poseA10 poseB10).2 < OKS_MIN_KEYPOINTS) := by
        norm_num [oksAccum, poseA10, poseB10, OKS_KEYPOINT_THRESHOLD, OKS_MIN_KEYPOINTS]
      have hlen1 : ¬(poseB10.length ≠ poseA10.length) := by norm_num [poseA10, poseB10]
      have hlen2 : ¬(poseA10.length ≠ poseB10.length) := by norm_num [poseA10, poseB10]
      unfold computeOKSSimilarity
      rw [if_neg hlen1, if_neg hlen2, if_neg hcBA, if_neg hcAB, hA, hB]
      norm_num [poseA10, poseB10, oksAccum, oksSigma, OKS_KEYPOINT_FALLOFF, OKS_KEYPOINT_THRESHOLD]
      · have h1 : Real.exp (-(20000000000 / 49 : ℝ)) < Real.exp (-(80000000000 / 343 : ℝ)) := by
          apply Real.exp_lt_exp.mpr
          norm_num
        have h2 : Real.exp (-(450000000 : ℝ)) < Real.exp (-(1800000000 / 7 : ℝ)) := by
          apply Real.exp_lt_exp.mpr
          norm_num
        have h3 : Real.exp (-(200000000 : ℝ)) < Real.exp (-(800000000 / 7 : ℝ)) := by
          apply Real.exp_lt_exp.mpr
          norm_num
        have h4 : Real.exp (-(7812500000 / 169 : ℝ)) < Real.exp (-(31250000000 / 1183 : ℝ)) := by
          apply Real.exp_lt_exp.mpr
          norm_num
        linarith
    exact Ne.symm (ne_of_lt hlt)

/-- One-Euro filter core (vision-ondevice.tsx lines 54-69): returns the
blended position and the smoothed derivative. -/
def oneEuroFilter (value lastValue lastDValue alpha dAlpha : ℝ) : ℝ × ℝ :=
  let dValue := value - lastValue
  let smoothedDValue := dAlpha * dValue + (1 - dAlpha) * lastDValue
  let filtered := alpha * value + (1 - alpha) * lastValue
  (filtered, smoothedDValue)

/-- Cutoff-to-alpha conversion `smoothingFactor` (lines 71-76). -/
def smoothingFactor (cutoff fps : ℝ) : ℝ :=
  let tau := 1.0 / (2.0 * Real.pi * cutoff)
  let te := 1.0 / fps
  1.0 / (1.0 + tau / te)

/-- Per-slot filter state (source lines 80-86, spec section 3 Filter
State). -/
structure FilterState where
  x : ℝ
  y : ℝ
  score : ℝ
  dx : ℝ
  dy : ℝ

/-- The worklet keys its filter-state dictionary by the string
`"kp_" ++ toString i` (line 116). -/
def kpKey (i : ℕ) : String := "kp_" ++ toString i

/-- The mutable `lastKeypoints` dictionary, modelled as a partial map. -/
def LastKeypoints : Type := String → Option FilterState

/-- One iteration (keypoint slot `i`) of the smoothing loop (lines 109-182),
threading the output buffer and the filter-state map.  The model buffer is a
real-valued list; the raw buffer holds `(y, x, score)` triples which are
scaled to screen space, optionally filtered, and written back normalized. -/
def smoothStep (keypoints : List ℝ) (screenWidth screenHeight fps movementThreshold : ℝ)
    (acc : List ℝ × LastKeypoints) (i : ℕ) : List ℝ × LastKeypoints :=
  let out := acc.1
  let lastKeypoints := acc.2
  let baseIndex := i * 3
  if keypoints.length ≤ baseIndex + 2 then acc
  else
    let rawX := keypoints.getD (baseIndex + 1) 0 * screenWidth
    let rawY := keypoints.getD baseIndex 0 * screenHeight
    let rawScore := keypoints.getD (baseIndex + 2) 0
    let st : FilterState :=
      match lastKeypoints (kpKey i) with
      | some last =>
          if rawScore > DETECTION_THRESHOLD then
            if |rawX - last.x| < movementThreshold ∧ |rawY - last.y| < movementThreshold then
              ⟨last.x, last.y, last.score, last.dx, last.dy⟩
            else
              let vx := rawX - last.x
              let vy := rawY - last.y
              let speed := Real.sqrt (vx * vx + vy * vy)
              let adaptiveCutoff := MIN_CUTOFF + BETA * speed
              let alpha := smoothingFactor adaptiveCutoff fps
              let dAlpha := smoothingFactor DERIVATE_CUTOFF fps
              let resultX := oneEuroFilter rawX last.x last.dx alpha dAlpha
              let resultY := oneEuroFilter rawY last.y last.dy alpha dAlpha
              ⟨resultX.1, resultY.1, 0.7 * rawScore + 0.3 * last.score, resultX.2, resultY.2⟩
          else ⟨rawX, rawY, rawScore, 0, 0⟩
      | none => ⟨rawX, rawY, rawScore, 0, 0⟩
    let lastKeypoints' : LastKeypoints := fun k => if k = kpKey i then some st else lastKeypoints k
    let out' :=
      if baseIndex + 2 < out.length then
        ((out.set baseIndex (st.y / screenHeight)).set (baseIndex + 1) (st.x / screenWidth)).set
          (baseIndex + 2) st.score
      else out
    (out', lastKeypoints')

/-- Model of `smoothKeypoints` (vision-ondevice.tsx lines 78-185).  A buffer shorter
than 51 values yields a fresh zero buffer of length 51 (`new
Float32Array(51)`, line 93); a non-numeric screen dimension (modelled as
`none`, line 96) or a non-positive one (line 100) returns the input values
unchanged (`new Float32Array(keypoints)`); otherwise the 17 keypoint slots
are smoothed into a zero-initialized buffer of the input length.  The
returned pair is (output buffer, updated filter-state map), making the
source's in-place mutation of `lastKeypoints` explicit. -/
def smoothKeypoints (keypoints : List ℝ) (lastKeypoints : LastKeypoints)
    (screenWidth screenHeight : Option ℝ) : List ℝ × LastKeypoints :=
  if keypoints.length < 51 then (List.replicate 51 0, lastKeypoints)
  else
    match screenWidth, screenHeight with
    | some w, some h =>
        if w ≤ 0 ∨ h ≤ 0 then (keypoints, lastKeypoints)
        else
          let fps := CAMERA_FPS / FRAME_SKIP_INTERVAL
          let movementThreshold := w * 0.01
          (List.range 17).foldl (smoothStep keypoints w h fps movementThreshold)
            (List.replicate keypoints.length 0, lastKeypoints)
    | _, _ => (keypoints, lastKeypoints)

/-- C5 (amended): a raw buffer with fewer than 51 values makes
`smoothKeypoints` return a fresh zero-filled 51-length buffer (not the
input), while non-numeric or non-positive screen dimensions return the input
values unchanged; in all these cases the filter-state map is untouched and
no exception is possible (the function is total). -/
theorem smoothKeypoints_guards (kps : List ℝ) (last : LastKeypoints) (w h : Option ℝ) :
    (kps.length < 51 → smoothKeypoints kps last w h = (List.replicate 51 0, last)) ∧
    (¬ kps.length < 51 → (w = none ∨ h = none) → smoothKeypoints kps last w h = (kps, last)) ∧
    (¬ kps.length < 51 → ∀ wv hv, w = some wv → h = some hv → (wv ≤ 0 ∨ hv ≤ 0) →
      smoothKeypoints kps last w h = (kps, last)) := by
  refine ⟨?_, ?_, ?_⟩
  · intro hshort
    unfold smoothKeypoints
    rw [if_pos hshort]
  · intro hlong hnone
    unfold smoothKeypoints
    rw [if_neg hlong]
    rcases hnone with rfl | rfl
    · cases h <;> rfl
    · cases w <;> rfl
  · intro hlong wv hv hw hh hle
    subst hw
    subst hh
    unfold smoothKeypoints
    rw [if_neg hlong]
    simp [hle]

/-- Witness for C5: a singleton buffer hits the zero-fill guard; a 51-length
buffer with a missing or non-positive dimension is passed through. -/
theorem smoothKeypoints_guards_witness :
    smoothKeypoints [(5:ℝ)] (fun _ => none) (some 100) (some 100) = (List.replicate 51 0, fun _ => none) ∧
    smoothKeypoints (List.replicate 51 (0:ℝ)) (fun _ => none) none (some 100) = (List.replicate 51 0, fun _ => none) ∧
    smoothKeypoints (List.replicate 51 (0:ℝ)) (fun _ => none) (some (-1)) (some 100) = (List.replicate 51 0, fun _ => none) := by
  refine ⟨?_, ?_, ?_⟩
  · exact (smoothKeypoints_guards [(5:ℝ)] (fun _ => none) (some 100) (some 100)).1 (by norm_num)
  · exact (smoothKeypoints_guards (List.replicate 51 (0:ℝ)) (fun _ => none) none (some 100)).2.1
      (by norm_num) (Or.inl rfl)
  · exact (smoothKeypoints_guards (List.replicate 51 (0:ℝ)) (fun _ => none) (some (-1)) (some 100)).2.2
      (by norm_num) (-1) 100 rfl rfl (Or.inl (by norm_num))

/-- Counterexample for C5 as stated: a too-short buffer is not returned
unchanged (the claim's "returns the input unchanged"); the function returns
a fresh 51-length zero buffer instead. -/
theorem smoothKeypoints_guards_counterexample :
    (smoothKeypoints [(5:ℝ)] (fun _ => none) (some 100) (some 100)).1 = List.replicate 51 0 ∧
    (smoothKeypoints [(5:ℝ)] (fun _ => none) (some 100) (some 100)).1 ≠ [(5:ℝ)] := by
  have hres : smoothKeypoints [(5:ℝ)] (fun _ => none) (some 100) (some 100) = (List.replicate 51 0, fun _ => none) := by
    unfold smoothKeypoints
    rw [if_pos (by norm_num)]
  constructor
  · rw [hres]
  · rw [hres]
    intro hc
    have hl := congrArg List.length hc
    simp at hl

/-- The expo-router movement-type parameter of `analyzeLiftForm`:
`string | string[] | undefined`. -/
inductive LiftTypeParam
  | undef
  | str (s : String)
  | arr (l : List String)

/-- Plain point for the geometric helpers of `analyzeLiftForm`. -/
structure Pt where
  x : ℝ
  y : ℝ

/-- Result payload of `analyzeLiftForm` (lines 545-549). -/
structure LiftFormResult where
  feedback : List String
  formScore : ℝ
  liftType : String

/-- Side tag of `getBilateralPoint` (line 259). -/
inductive BilateralSide
  | left
  | right
  | avg
  | none
deriving DecidableEq

/-- Bilateral virtual landmark `{x, y, score, side}` (lines 256-282). -/
structure BilateralPt where
  x : ℝ
  y : ℝ
  score : ℝ
  side : BilateralSide

def Keypoint.pt (kp : Keypoint) : Pt := ⟨kp.x, kp.y⟩

def BilateralPt.pt (p : BilateralPt) : Pt := ⟨p.x, p.y⟩

/-- Model of `getPoint` (lines 207-211): reads the `(y, x, score)` triple of keypoint
`index` and scales it to screen space.  An out-of-range read (JS
`undefined`, propagating NaN into the downstream NaN guards) is modelled as
0; every in-app call passes a 51-value buffer, for which no read is out of
range. -/
def getPoint (keypoints : List ℝ) (screenWidth screenHeight : ℝ) (index : ℕ) : Keypoint :=
  ⟨keypoints.getD (index * 3 + 1) 0 * screenWidth,
   keypoints.getD (index * 3) 0 * screenHeight,
   keypoints.getD (index * 3 + 2) 0⟩

/-- Model of `calculateAngle` (lines 213-241): three-point angle from the `atan2`
difference of the two vectors out of the middle point, `null` when either
pair of points is closer than 1 unit.  `Math.atan2 y x` is the argument of
the complex number `x + y*I`; the source's `isNaN` guard cannot fire in the
real-number model. -/
def calculateAngle (p1 p2 p3 : Pt) : Option ℝ :=
  let dist12 := Real.sqrt ((p2.x - p1.x) ^ 2 + (p2.y - p1.y) ^ 2)
  let dist23 := Real.sqrt ((p3.x - p2.x) ^ 2 + (p3.y - p2.y) ^ 2)
  if dist12 < 1 ∨ dist23 < 1 then Option.none
  else
    let radians := Complex.arg ⟨p3.x - p2.x, p3.y - p2.y⟩ - Complex.arg ⟨p1.x - p2.x, p1.y - p2.y⟩
    let angle := |radians * 180 / Real.pi|
    Option.some (if angle > 180 then 360 - angle else angle)

/-- Model of `calculateDistance` (lines 243-254); its `isNaN` guard cannot fire in
the real-number model, so the result is always `some`. -/
def calculateDistance (p1 p2 : Pt) : Option ℝ :=
  Option.some (Real.sqrt ((p2.x - p1.x) ^ 2 + (p2.y - p1.y) ^ 2))

/-- Model of `getBilateralPoint` (lines 256-282): confidence-weighted average when
both sides clear `DETECTION_THRESHOLD`, else whichever side is available,
else the zero point tagged `none`. -/
def getBilateralPoint (leftPoint rightPoint : Keypoint) : BilateralPt :=
  if DETECTION_THRESHOLD < leftPoint.score ∧ DETECTION_THRESHOLD < rightPoint.score then
    let totalScore := leftPoint.score + rightPoint.score
    ⟨(leftPoint.x * leftPoint.score + rightPoint.x * rightPoint.score) / totalScore,
     (leftPoint.y * leftPoint.score + rightPoint.y * rightPoint.score) / totalScore,
     max leftPoint.score rightPoint.score, BilateralSide.avg⟩
  else if DETECTION_THRESHOLD < leftPoint.score then
    ⟨leftPoint.x, leftPoint.y, leftPoint.score, BilateralSide.left⟩
  else if DETECTION_THRESHOLD < rightPoint.score then
    ⟨rightPoint.x, rightPoint.y, rightPoint.score, BilateralSide.right⟩
  else ⟨0, 0, 0, BilateralSide.none⟩

/-- Squat depth block (lines 309-332).  `(feedback, formScore)` is threaded
explicitly in place of the source's mutation; the user-height interpolation
of the calibrated message (line 323) is abstracted to a fixed string. -/
def squatDepthStep (hip knee shoulder : BilateralPt) (userHeight : Option ℝ)
    (prev : List String × ℝ) : List String × ℝ :=
  match calculateDistance hip.pt knee.pt, calculateDistance shoulder.pt hip.pt with
  | Option.some _, Option.some _ =>
      let depthRatio := hip.y - knee.y
      let torsoLength := |shoulder.y - hip.y|
      let heightAdjustment :=
        match userHeight with
        | Option.some uh => if 0 < uh then uh / 170 else 1.0
        | Option.none => 1.0
      let depthThreshold := torsoLength * 0.1 * heightAdjustment
      if depthRatio < -depthThreshold then
        (prev.1 ++ [match userHeight with
          | Option.some _ => "‚úÖ Excellent depth (calibrated)"
          | Option.none => "‚úÖ Excellent depth - below parallel"], prev.2 + 0)
      else if depthRatio < depthThreshold * 0.5 then
        (prev.1 ++ ["‚ö†Ô∏è At parallel - try slightly deeper"], prev.2 - 5)
      else
        (prev.1 ++ ["‚ùå Too shallow - squat deeper"], prev.2 - 20)
  | _, _ => prev

/-- Squat knee-tracking block (lines 334-351). -/
def squatKneeStep (leftKnee rightKnee leftAnkle rightAnkle : Keypoint)
    (prev : List String × ℝ) : List String × ℝ :=
  if DETECTION_THRESHOLD < leftKnee.score ∧ DETECTION_THRESHOLD < rightKnee.score ∧
      DETECTION_THRESHOLD < leftAnkle.score ∧ DETECTION_THRESHOLD < rightAnkle.score then
    let kneeWidth := |leftKnee.x - rightKnee.x|
    let ankleWidth := |leftAnkle.x - rightAnkle.x|
    if kneeWidth < ankleWidth * 0.75 then
      (prev.1 ++ ["‚ùå Knees caving in - push knees out"], prev.2 - 15)
    else if kneeWidth < ankleWidth * 0.9 then
      (prev.1 ++ ["‚ö†Ô∏è Watch knee tracking"], prev.2 - 5)
    else (prev.1 ++ ["‚úÖ Good knee tracking"], prev.2)
  else prev

/-- Squat hip-angle block (lines 353-365). -/
def squatHipAngleStep (hip knee shoulder : BilateralPt)
    (prev : List String × ℝ) : List String × ℝ :=
  match calculateAngle shoulder.pt hip.pt knee.pt with
  | Option.some hipAngle =>
      if hipAngle < 50 then (prev.1 ++ ["‚ùå Chest up! Torso too horizontal"], prev.2 - 15)
      else if hipAngle < 70 then (prev.1 ++ ["‚ö†Ô∏è Keep chest more upright"], prev.2 - 5)
      else (prev.1 ++ ["‚úÖ Good torso position"], prev.2)
  | Option.none => prev

/-- Squat knee-angle block (lines 367-378). -/
def squatKneeAngleStep (hip knee ankle : BilateralPt)
    (prev : List String × ℝ) : List String × ℝ :=
  match calculateAngle hip.pt knee.pt ankle.pt with
  | Option.some kneeAngle =>
      if kneeAngle < 60 then (prev.1 ++ ["‚ö†Ô∏è Very deep squat - check mobility"], prev.2)
      else if kneeAngle < 90 then (prev.1 ++ ["‚úÖ Good squat depth"], prev.2)
      else (prev.1 ++ ["‚ö†Ô∏è Squat deeper for full ROM"], prev.2 - 10)
  | Option.none => prev

/-- The squat branch (lines 303-385): four feedback blocks when all four
bilateral landmarks are available, one "position yourself" message with a
-30 penalty otherwise; feedback starts `[]` and the score starts 100. -/
def squatAnalysis (hip knee ankle shoulder : BilateralPt)
    (leftKnee rightKnee leftAnkle rightAnkle : Keypoint)
    (userHeight : Option ℝ) : List String × ℝ :=
  if hip.side ≠ BilateralSide.none ∧ knee.side ≠ BilateralSide.none ∧
      ankle.side ≠ BilateralSide.none ∧ shoulder.side ≠ BilateralSide.none then
    squatKneeAngleStep hip knee ankle
      (squatHipAngleStep hip knee shoulder
        (squatKneeStep leftKnee rightKnee leftAnkle rightAnkle
          (squatDepthStep hip knee shoulder userHeight ([], 100))))
  else (["‚ö†Ô∏è Position yourself to show full body"], 100 - 30)

/-- Bench elbow-angle block (lines 395-407). -/
def benchElbowStep (shoulder elbow wrist : BilateralPt)
    (prev : List String × ℝ) : List String × ℝ :=
  match calculateAngle shoulder.pt elbow.pt wrist.pt with
  | Option.some elbowAngle =>
      if elbowAngle < 60 then (prev.1 ++ ["‚ùå Elbows too flared - tuck them"], prev.2 - 15)
      else if elbowAngle > 95 then (prev.1 ++ ["‚ö†Ô∏è Elbows could tuck more (75-90¬∞)"], prev.2 - 5)
      else (prev.1 ++ ["‚úÖ Good elbow angle"], prev.2)
  | Option.none => prev

/-- Bench bar-path block (lines 409-427). -/
def benchBarPathStep (shoulder wrist : BilateralPt)
    (leftShoulder rightShoulder : Keypoint)
    (prev : List String × ℝ) : List String × ℝ :=
  match calculateDistance ⟨wrist.x, 0⟩ ⟨shoulder.x, 0⟩ with
  | Option.some barPathDeviation =>
      let shoulderWidth := |leftShoulder.x - rightShoulder.x|
      let deviationRatio := barPathDeviation / max shoulderWidth 1
      if deviationRatio > 0.3 then (prev.1 ++ ["‚ùå Bar path not vertical"], prev.2 - 15)
      else if deviationRatio > 0.15 then (prev.1 ++ ["‚ö†Ô∏è Keep bar path straight"], prev.2 - 5)
      else (prev.1 ++ ["‚úÖ Excellent bar path"], prev.2)
  | Option.none => prev

/-- Bench wrist-bend block (lines 429-442). -/
def benchWristStep (shoulder elbow wrist : BilateralPt)
    (prev : List String × ℝ) : List String × ℝ :=
  match calculateDistance wrist.pt elbow.pt with
  | Option.some wristElbowDistance =>
      match calculateDistance elbow.pt shoulder.pt with
      | Option.some elbowShoulderDistance =>
          let wristBendRatio := wristElbowDistance / elbowShoulderDistance
          if wristBendRatio < 0.3 then (prev.1 ++ ["‚ö†Ô∏è Wrists bent - keep neutral"], prev.2 - 10)
          else prev
      | Option.none => prev
  | Option.none => prev

/-- Bench arm-symmetry block (lines 444-460). -/
def benchSymmetryStep (leftShoulder rightShoulder leftElbow rightElbow leftWrist rightWrist : Keypoint)
    (prev : List String × ℝ) : List String × ℝ :=
  if MIN_CONFIDENCE < leftElbow.score ∧ MIN_CONFIDENCE < rightElbow.score ∧
      MIN_CONFIDENCE < leftWrist.score ∧ MIN_CONFIDENCE < rightWrist.score then
    match calculateAngle leftShoulder.pt leftElbow.pt leftWrist.pt,
          calculateAngle rightShoulder.pt rightElbow.pt rightWrist.pt with
    | Option.some leftArmAngle, Option.some rightArmAngle =>
        let asymmetry := |leftArmAngle - rightArmAngle|
        if asymmetry > 15 then (prev.1 ++ ["‚ö†Ô∏è Uneven arms - check form"], prev.2 - 10)
        else (prev.1 ++ ["‚úÖ Symmetric arm movement"], prev.2)
    | _, _ => prev
  else prev

/-- The bench branch (lines 387-467). -/
def benchAnalysis (shoulder elbow wrist : BilateralPt)
    (leftShoulder rightShoulder leftElbow rightElbow leftWrist rightWrist : Keypoint) :
    List String × ℝ :=
  if shoulder.side ≠ BilateralSide.none ∧ elbow.side ≠ BilateralSide.none ∧
      wrist.side ≠ BilateralSide.none then
    benchSymmetryStep leftShoulder rightShoulder leftElbow rightElbow leftWrist rightWrist
      (benchWristStep shoulder elbow wrist
        (benchBarPathStep shoulder wrist leftShoulder rightShoulder
          (benchElbowStep shoulder elbow wrist ([], 100))))
  else (["‚ö†Ô∏è Position camera to show upper body"], 100 - 30)

/-- Deadlift hip-height block (lines 475-493). -/
def deadliftHipStep (hip knee shoulder : BilateralPt)
    (prev : List String × ℝ) : List String × ℝ :=
  match calculateDistance hip.pt knee.pt, calculateDistance shoulder.pt hip.pt with
  | Option.some _, Option.some _ =>
      let hipKneeRatio := hip.y - knee.y
      let torsoLength := |shoulder.y - hip.y|
      if hipKneeRatio < -torsoLength * 0.1 then
        (prev.1 ++ ["‚ùå Hips too low - not a squat!"], prev.2 - 20)
      else if hipKneeRatio > torsoLength * 0.3 then
        (prev.1 ++ ["‚ö†Ô∏è Hips might be too high"], prev.2 - 5)
      else (prev.1 ++ ["‚úÖ Good hip position"], prev.2)
  | _, _ => prev

/-- Deadlift back-angle block (lines 495-515); `Math.atan2` is again the
complex argument. -/
def deadliftBackStep (hip shoulder : BilateralPt)
    (prev : List String × ℝ) : List String × ℝ :=
  let hipShoulderVertical := |shoulder.y - hip.y|
  let hipShoulderHorizontal := |shoulder.x - hip.x|
  if 0 < hipShoulderVertical ∧ 0 ≤ hipShoulderHorizontal then
    let backAngleDegrees := Complex.arg ⟨hipShoulderHorizontal, hipShoulderVertical⟩ * 180 / Real.pi
    if backAngleDegrees < 30 then (prev.1 ++ ["‚ùå Back too horizontal - DANGEROUS"], prev.2 - 25)
    else if backAngleDegrees < 40 then (prev.1 ++ ["‚ö†Ô∏è Lift chest slightly"], prev.2 - 10)
    else if backAngleDegrees > 75 then (prev.1 ++ ["‚ö†Ô∏è Too vertical - engage hips more"], prev.2 - 10)
    else (prev.1 ++ ["‚úÖ Good back angle"], prev.2)
  else prev

/-- Deadlift lockout block (lines 517-524). -/
def deadliftLockoutStep (hip shoulder : BilateralPt) (screenHeight : ℝ)
    (prev : List String × ℝ) : List String × ℝ :=
  let lockoutAlignment := |hip.x - shoulder.x|
  let torsoLength := |shoulder.y - hip.y|
  if lockoutAlignment < torsoLength * 0.15 ∧ torsoLength > screenHeight * 0.2 then
    (prev.1 ++ ["‚úÖ Full lockout achieved!"], prev.2)
  else prev

/-- Deadlift shoulder-position block (lines 526-534). -/
def deadliftShoulderStep (shoulder knee : BilateralPt) (leftKnee rightKnee : Keypoint)
    (prev : List String × ℝ) : List String × ℝ :=
  let shoulderKneeX := shoulder.x - knee.x
  let kneeWidth := |leftKnee.x - rightKnee.x|
  if shoulderKneeX < -kneeWidth * 0.5 then
    (prev.1 ++ ["‚ö†Ô∏è Shoulders behind bar - shift forward"], prev.2 - 10)
  else (prev.1 ++ ["‚úÖ Good shoulder position"], prev.2)

/-- The deadlift branch (lines 469-541). -/
def deadliftAnalysis (hip shoulder knee ankle : BilateralPt)
    (leftKnee rightKnee : Keypoint) (screenHeight : ℝ) : List String × ℝ :=
  if hip.side ≠ BilateralSide.none ∧ shoulder.side ≠ BilateralSide.none ∧
      knee.side ≠ BilateralSide.none ∧ ankle.side ≠ BilateralSide.none then
    deadliftShoulderStep shoulder knee leftKnee rightKnee
      (deadliftLockoutStep hip shoulder screenHeight
        (deadliftBackStep hip shoulder
          (deadliftHipStep hip knee shoulder ([], 100))))
  else (["‚ö†Ô∏è Position to show full body from side"], 100 - 30)

/-- Model of JavaScript `String.prototype.toLowerCase` as a per-character
map (as in core `String.toLower`, but defined by structural list map so that
concrete strings reduce). -/
def toLowerCase (s : String) : String := String.mk (s.data.map Char.toLower)

/-- The body of `analyzeLiftForm` after the lift-type guard (lines 205-541):
derives the named keypoints and bilateral landmarks and dispatches on the
lowercased lift type; an unrecognized type falls through every branch,
keeping the initial empty feedback and score 100. -/
def analyzeLiftFormCore (keypoints : List ℝ) (s : String)
    (screenWidth screenHeight : ℝ) (userHeight userWeight : Option ℝ) : List String × ℝ :=
  let nose := getPoint keypoints screenWidth screenHeight 0
  let leftShoulder := getPoint keypoints screenWidth screenHeight 5
  let rightShoulder := getPoint keypoints screenWidth screenHeight 6
  let leftElbow := getPoint keypoints screenWidth screenHeight 7
  let rightElbow := getPoint keypoints screenWidth screenHeight 8
  let leftWrist := getPoint keypoints screenWidth screenHeight 9
  let rightWrist := getPoint keypoints screenWidth screenHeight 10
  let leftHip := getPoint keypoints screenWidth screenHeight 11
  let rightHip := getPoint keypoints screenWidth screenHeight 12
  let leftKnee := getPoint keypoints screenWidth screenHeight 13
  let rightKnee := getPoint keypoints screenWidth screenHeight 14
  let leftAnkle := getPoint keypoints screenWidth screenHeight 15
  let rightAnkle := getPoint keypoints screenWidth screenHeight 16
  let shoulder := getBilateralPoint leftShoulder rightShoulder
  let hip := getBilateralPoint leftHip rightHip
  let knee := getBilateralPoint leftKnee rightKnee
  let ankle := getBilateralPoint leftAnkle rightAnkle
  if toLowerCase s = "squat" then
    squatAnalysis hip knee ankle shoulder leftKnee rightKnee leftAnkle rightAnkle userHeight
  else if toLowerCase s = "bench" then
    benchAnalysis shoulder (getBilateralPoint leftElbow rightElbow)
      (getBilateralPoint leftWrist rightWrist)
      leftShoulder rightShoulder leftElbow rightElbow leftWrist rightWrist
  else if toLowerCase s = "deadlift" then
    deadliftAnalysis hip shoulder knee ankle leftKnee rightKnee screenHeight
  else ([], 100)

/-- Model of `analyzeLiftForm` (vision-ondevice.tsx lines 187-550).  A falsy lift
type (`undefined` or the empty string) or an array short-circuits to the
neutral result (lines 200-203); otherwise the movement branches run and the
final result keeps the first 4 feedback entries (`feedback.slice(0, 4)`,
line 546) and floors the score at 0 (line 543). -/
def analyzeLiftForm (keypoints : List ℝ) (liftType : LiftTypeParam)
    (screenWidth screenHeight : ℝ) (userHeight userWeight : Option ℝ) : LiftFormResult :=
  match liftType with
  | LiftTypeParam.undef => ⟨["‚ö†Ô∏è Select a lift type"], 0, "unknown"⟩
  | LiftTypeParam.arr _ => ⟨["‚ö†Ô∏è Select a lift type"], 0, "unknown"⟩
  | LiftTypeParam.str s =>
      if s = "" then ⟨["‚ö†Ô∏è Select a lift type"], 0, "unknown"⟩
      else
        let res := analyzeLiftFormCore keypoints s screenWidth screenHeight userHeight userWeight
        ⟨res.1.take 4, max 0 res.2, s⟩

/-! Feedback-length accounting for the form-analysis blocks: every block
appends at most one message. -/

lemma squatDepthStep_len (hip knee shoulder : BilateralPt) (uh : Option ℝ)
    (p : List String × ℝ) :
    (squatDepthStep hip knee shoulder uh p).1.length ≤ p.1.length + 1 := by
  unfold squatDepthStep calculateDistance
  repeat' split
  all_goals try dsimp only
  all_goals try split_ifs
  all_goals simp

lemma squatKneeStep_len (lk rk la ra : Keypoint) (p : List String × ℝ) :
    (squatKneeStep lk rk la ra p).1.length ≤ p.1.length + 1 := by
  unfold squatKneeStep
  repeat' split
  all_goals try dsimp only
  all_goals try split_ifs
  all_goals simp

lemma squatHipAngleStep_len (hip knee shoulder : BilateralPt) (p : List String × ℝ) :
    (squatHipAngleStep hip knee shoulder p).1.length ≤ p.1.length + 1 := by
  unfold squatHipAngleStep
  repeat' split
  all_goals try dsimp only
  all_goals try split_ifs
  all_goals simp

lemma squatKneeAngleStep_len (hip knee ankle : BilateralPt) (p : List String × ℝ) :
    (squatKneeAngleStep hip knee ankle p).1.length ≤ p.1.length + 1 := by
  unfold squatKneeAngleStep
  repeat' split
  all_goals try dsimp only
  all_goals try split_ifs
  all_goals simp

lemma benchElbowStep_len (shoulder elbow wrist : BilateralPt) (p : List String × ℝ) :
    (benchElbowStep shoulder elbow wrist p).1.length ≤ p.1.length + 1 := by
  unfold benchElbowStep
  repeat' split
  all_goals try dsimp only
  all_goals try split_ifs
  all_goals simp

lemma benchBarPathStep_len (shoulder wrist : BilateralPt) (ls rs : Keypoint)
    (p : List String × ℝ) :
    (benchBarPathStep shoulder wrist ls rs p).1.length ≤ p.1.length + 1 := by
  unfold benchBarPathStep calculateDistance
  repeat' split
  all_goals try dsimp only
  all_goals try split_ifs
  all_goals simp

lemma benchWristStep_len (shoulder elbow wrist : BilateralPt) (p : List String × ℝ) :
    (benchWristStep shoulder elbow wrist p).1.length ≤ p.1.length + 1 := by
  unfold benchWristStep calculateDistance
  repeat' split
  all_goals try dsimp only
  all_goals try split_ifs
  all_goals simp

lemma benchSymmetryStep_len (ls rs le' re lw rw : Keypoint) (p : List String × ℝ) :
    (benchSymmetryStep ls rs le' re lw rw p).1.length ≤ p.1.length + 1 := by
  unfold benchSymmetryStep
  repeat' split
  all_goals try dsimp only
  all_goals try split_ifs
  all_goals simp

lemma deadliftHipStep_len (hip knee shoulder : BilateralPt) (p : List String × ℝ) :
    (deadliftHipStep hip knee shoulder p).1.length ≤ p.1.length + 1 := by
  unfold deadliftHipStep calculateDistance
  repeat' split
  all_goals try dsimp only
  all_goals try split_ifs
  all_goals simp

lemma deadliftBackStep_len (hip shoulder : BilateralPt) (p : List String × ℝ) :
    (deadliftBackStep hip shoulder p).1.length ≤ p.1.length + 1 := by
  unfold deadliftBackStep
  repeat' split
  all_goals try dsimp only
  all_goals try split_ifs
  all_goals simp

lemma deadliftLockoutStep_len (hip shoulder : BilateralPt) (sh : ℝ) (p : List String × ℝ) :
    (deadliftLockoutStep hip shoulder sh p).1.length ≤ p.1.length + 1 := by
  unfold deadliftLockoutStep
  repeat' split
  all_goals try dsimp only
  all_goals try split_ifs
  all_goals simp

lemma deadliftShoulderStep_len (shoulder knee : BilateralPt) (lk rk : Keypoint)
    (p : List String × ℝ) :
    (deadliftShoulderStep shoulder knee lk rk p).1.length ≤ p.1.length + 1 := by
  unfold deadliftShoulderStep
  repeat' split
  all_goals try dsimp only
  all_goals try split_ifs
  all_goals simp

lemma four_steps_len (f1 f2 f3 f4 : List String × ℝ → List String × ℝ)
    (h1 : ∀ p, (f1 p).1.length ≤ p.1.length + 1)
    (h2 : ∀ p, (f2 p).1.length ≤ p.1.length + 1)
    (h3 : ∀ p, (f3 p).1.length ≤ p.1.length + 1)
    (h4 : ∀ p, (f4 p).1.length ≤ p.1.length + 1) :
    (f4 (f3 (f2 (f1 ([], 100))))).1.length ≤ 4 := by
  have a1 := h1 ([], 100)
  have a2 := h2 (f1 ([], 100))
  have a3 := h3 (f2 (f1 ([], 100)))
  have a4 := h4 (f3 (f2 (f1 ([], 100))))
  simp only [List.length_nil] at a1
  omega

lemma analyzeLiftFormCore_len (kps : List ℝ) (s : String) (w h : ℝ) (uh uw : Option ℝ) :
    (analyzeLiftFormCore kps s w h uh uw).1.length ≤ 4 := by
  unfold analyzeLiftFormCore
  dsimp only
  split_ifs
  · unfold squatAnalysis
    split_ifs
    · exact four_steps_len _ _ _ _ (squatDepthStep_len _ _ _ _) (squatKneeStep_len _ _ _ _)
        (squatHipAngleStep_len _ _ _) (squatKneeAngleStep_len _ _ _)
    · simp
  · unfold benchAnalysis
    split_ifs
    · exact four_steps_len _ _ _ _ (benchElbowStep_len _ _ _) (benchBarPathStep_len _ _ _ _)
        (benchWristStep_len _ _ _) (benchSymmetryStep_len _ _ _ _ _ _)
    · simp
  · unfold deadliftAnalysis
    split_ifs
    · exact four_steps_len _ _ _ _ (deadliftHipStep_len _ _ _) (deadliftBackStep_len _ _)
        (deadliftLockoutStep_len _ _ _) (deadliftShoulderStep_len _ _ _ _)
    · simp
  · simp

lemma analyzeLiftFormCore_other (kps : List ℝ) (s : String) (w h : ℝ) (uh uw : Option ℝ)
    (h1 : ¬ toLowerCase s = "squat") (h2 : ¬ toLowerCase s = "bench") (h3 : ¬ toLowerCase s = "deadlift") :
    analyzeLiftFormCore kps s w h uh uw = ([], 100) := by
  unfold analyzeLiftFormCore
  dsimp only
  rw [if_neg h1, if_neg h2, if_neg h3]

/-- C4: the result of `analyzeLiftForm` carries at most 4 feedback messages
and a score that is never below 0; moreover the accumulated feedback list
itself never exceeds 4 entries, so the `slice(0, 4)` cap never drops a
message (the claim's clause about more than 4 appended messages is vacuous)
and the returned list is the whole appended list. -/
theorem analyzeLiftForm_cap_and_floor (kps : List ℝ) (lt : LiftTypeParam) (w h : ℝ)
    (uh uw : Option ℝ) (s : String) :
    (analyzeLiftForm kps lt w h uh uw).feedback.length ≤ 4 ∧
    0 ≤ (analyzeLiftForm kps lt w h uh uw).formScore ∧
    (analyzeLiftFormCore kps s w h uh uw).1.length ≤ 4 ∧
    (lt = LiftTypeParam.str s → s ≠ "" →
      (analyzeLiftForm kps lt w h uh uw).feedback = (analyzeLiftFormCore kps s w h uh uw).1) := by
  refine ⟨?_, ?_, analyzeLiftFormCore_len kps s w h uh uw, ?_⟩
  · cases lt with
    | undef => simp [analyzeLiftForm]
    | arr l => simp [analyzeLiftForm]
    | str s' =>
        by_cases hs : s' = ""
        · simp [analyzeLiftForm, hs]
        · simp only [analyzeLiftForm, if_neg hs, List.length_take]
          omega
  · cases lt with
    | undef => simp [analyzeLiftForm]
    | arr l => simp [analyzeLiftForm]
    | str s' =>
        by_cases hs : s' = ""
        · simp [analyzeLiftForm, hs]
        · simp only [analyzeLiftForm, if_neg hs]
          exact le_max_left 0 _
  · intro hlt hs
    subst hlt
    simp only [analyzeLiftForm, if_neg hs]
    exact List.take_of_length_le (analyzeLiftFormCore_len kps s w h uh uw)

/-- Witness for C4: with a 51-value zero buffer and the squat lift type the
hypotheses of the final clause are satisfiable and the returned feedback is
exactly the accumulated list. -/
theorem analyzeLiftForm_cap_and_floor_witness :
    (analyzeLiftForm (List.replicate 51 0) (LiftTypeParam.str "squat") 100 100 Option.none Option.none).feedback =
      (analyzeLiftFormCore (List.replicate 51 0) "squat" 100 100 Option.none Option.none).1 ∧
    0 ≤ (analyzeLiftForm (List.replicate 51 0) (LiftTypeParam.str "squat") 100 100 Option.none Option.none).formScore :=
  ⟨(analyzeLiftForm_cap_and_floor (List.replicate 51 0) (LiftTypeParam.str "squat") 100 100
      Option.none Option.none "squat").2.2.2 rfl (by decide),
   (analyzeLiftForm_cap_and_floor (List.replicate 51 0) (LiftTypeParam.str "squat") 100 100
      Option.none Option.none "squat").2.1⟩

/-- C2 (amended): `analyzeLiftForm` returns the neutral score-0 "Select a
lift type" result exactly for a missing value, an array value, or the empty
string (the JS falsy guard); any other string outside the movement enum
passes the guard, matches no movement branch, and returns an empty feedback
list with score 100 rather than the neutral result. -/
theorem analyzeLiftForm_guard (kps : List ℝ) (w h : ℝ) (uh uw : Option ℝ) :
    analyzeLiftForm kps LiftTypeParam.undef w h uh uw = ⟨["‚ö†Ô∏è Select a lift type"], 0, "unknown"⟩ ∧
    (∀ l, analyzeLiftForm kps (LiftTypeParam.arr l) w h uh uw = ⟨["‚ö†Ô∏è Select a lift type"], 0, "unknown"⟩) ∧
    analyzeLiftForm kps (LiftTypeParam.str "") w h uh uw = ⟨["‚ö†Ô∏è Select a lift type"], 0, "unknown"⟩ ∧
    (∀ s, s ≠ "" → toLowerCase s ≠ "squat" → toLowerCase s ≠ "bench" → toLowerCase s ≠ "deadlift" →
      analyzeLiftForm kps (LiftTypeParam.str s) w h uh uw = ⟨[], 100, s⟩) := by
  refine ⟨rfl, fun l => rfl, ?_, ?_⟩
  · unfold analyzeLiftForm
    dsimp only
    rw [if_pos rfl]
  · intro s hs h1 h2 h3
    unfold analyzeLiftForm
    dsimp only
    rw [if_neg hs]
    rw [analyzeLiftFormCore_other kps s w h uh uw h1 h2 h3]
    norm_num

/-- Witness for C2: the concrete non-enum string "cardio" exercises the
final clause. -/
theorem analyzeLiftForm_guard_witness :
    analyzeLiftForm (List.replicate 51 0) (LiftTypeParam.str "cardio") 100 100 Option.none Option.none =
      ⟨[], 100, "cardio"⟩ :=
  (analyzeLiftForm_guard (List.replicate 51 0) 100 100 Option.none Option.none).2.2.2 "cardio"
    (by decide) (by decide) (by decide) (by decide)

/-- Counterexample for C2 as stated: the non-enum string "cardio" does not
yield a score-0 "no lift type selected" result; the score is 100 and the
feedback list is empty. -/
theorem analyzeLiftForm_guard_counterexample :
    (analyzeLiftForm (List.replicate 51 0) (LiftTypeParam.str "cardio") 100 100 Option.none Option.none).formScore = 100 ∧
    (analyzeLiftForm (List.replicate 51 0) (LiftTypeParam.str "cardio") 100 100 Option.none Option.none).formScore ≠ 0 ∧
    (analyzeLiftForm (List.replicate 51 0) (LiftTypeParam.str "cardio") 100 100 Option.none Option.none).feedback = [] := by
  have hres : analyzeLiftForm (List.replicate 51 0) (LiftTypeParam.str "cardio") 100 100 Option.none Option.none = ⟨[], 100, "cardio"⟩ := by
    unfold analyzeLiftForm
    dsimp only
    rw [if_neg (by decide)]
    rw [analyzeLiftFormCore_other (List.replicate 51 0) "cardio" 100 100 Option.none Option.none
      (by decide) (by decide) (by decide)]
    norm_num
  rw [hres]
  norm_num

/-- A tracked person (vision-ondevice.tsx lines 47-51, test lines 463-467). -/
structure TrackedPerson where
  id : ℕ
  lastSeen : ℤ
  keypoints : List Keypoint

/-- State of the `TrackingManager` tracking simulator
(performance.benchmark.test.ts lines 470-547): the insertion-ordered
`trackedPersons` map (modelled as a list whose entries carry their key as
`id`), the `nextPersonId` counter, and the `frameHistory` log. -/
structure TrackerState where
  trackedPersons : List TrackedPerson
  nextPersonId : ℕ
  frameHistory : List (ℤ × ℕ)

/-- A fresh `TrackingManager` (field initializers, test lines 471-473). -/
def initialTracker : TrackerState := ⟨[], 0, []⟩

/-- Model of `reset()` (test lines 542-546). -/
def resetTracker (_s : TrackerState) : TrackerState := ⟨[], 0, []⟩

/-- The recurring age test `currentTime - lastSeen < TRACKING_MAX_AGE`: used
to snapshot active tracks (lines 480-482) and, with the complementary
condition, to delete stale tracks in the end-of-frame sweep (lines
520-524). -/
def activeFilter (currentTime : ℤ) : List TrackedPerson → List TrackedPerson
  | [] => []
  | t :: rest =>
      if currentTime - t.lastSeen < TRACKING_MAX_AGE then t :: activeFilter currentTime rest
      else activeFilter currentTime rest

/-- The best-match scan of one detection over the active tracks (lines
488-499): tracks already claimed this frame are skipped, and a track is
selected only when its similarity strictly exceeds the running best, which
starts at `TRACKING_MIN_SIMILARITY`; `bestTrackId` starts at `-1`. -/
def findBestTrack (detectedKeypoints : List Keypoint) (matched : List ℤ)
    (activeTracks : List TrackedPerson) : ℤ × ℝ :=
  activeTracks.foldl
    (fun best track =>
      if (track.id : ℤ) ∈ matched then best
      else
        let similarity := computeOKSSimilarityJS detectedKeypoints track.keypoints
        if similarity > best.2 then ((track.id : ℤ), similarity) else best)
    (-1, TRACKING_MIN_SIMILARITY)

/-- Model of `this.trackedPersons.get(id)` on the list model of the map. -/
def lookupTrack (id : ℤ) : List TrackedPerson → Option TrackedPerson
  | [] => Option.none
  | t :: rest => if (t.id : ℤ) = id then Option.some t else lookupTrack id rest

/-- In-place update of a matched track (lines 502-506): new keypoints and
`lastSeen`; the id (and the entry's position in the map) is preserved. -/
def updateTrack (id : ℤ) (det : List Keypoint) (currentTime : ℤ) :
    List TrackedPerson → List TrackedPerson :=
  List.map fun t => if (t.id : ℤ) = id then ⟨t.id, currentTime, det⟩ else t

/-- Processing of one detection inside the frame loop (lines 487-517); the
fold state is `(trackedPersons, matched, nextPersonId)`.  Note that the
capacity test (line 508) compares against the `activeTracks` snapshot taken
at frame start, not against the current map. -/
def matchDetection (activeTracks : List TrackedPerson) (currentTime : ℤ)
    (st : List TrackedPerson × List ℤ × ℕ) (detectedKeypoints : List Keypoint) :
    List TrackedPerson × List ℤ × ℕ :=
  let best := findBestTrack detectedKeypoints st.2.1 activeTracks
  if 0 ≤ best.1 then
    match lookupTrack best.1 st.1 with
    | Option.some _ =>
        (updateTrack best.1 detectedKeypoints currentTime st.1, st.2.1 ++ [best.1], st.2.2)
    | Option.none => st
  else if activeTracks.length < TRACKING_MAX_PERSONS then
    (st.1 ++ [⟨st.2.2, currentTime, detectedKeypoints⟩], st.2.1, st.2.2 + 1)
  else st

/-- Model of `TrackingManager.procesFrame` (performance.benchmark.test.ts lines
475-532): snapshot the active tracks, greedily match each detection in input
order, create or silently drop unmatched detections, sweep out stale tracks,
and log the frame. -/
def procesFrame (currentKeypoints : List (List Keypoint)) (timestamp : ℤ)
    (s : TrackerState) : TrackerState :=
  let activeTracks := activeFilter timestamp s.trackedPersons
  let res := currentKeypoints.foldl (matchDetection activeTracks timestamp)
    (s.trackedPersons, [], s.nextPersonId)
  let swept := activeFilter timestamp res.1
  ⟨swept, res.2.2, s.frameHistory ++ [(timestamp, swept.length)]⟩

/-- Folding a whole frame sequence from a fresh tracker (no reset). -/
def trackerRun (frames : List (List (List Keypoint) × ℤ)) : TrackerState :=
  frames.foldl (fun s f => procesFrame f.1 f.2 s) initialTracker

/-! Tracker lemmas. -/

lemma matchDetection_empty_active (ts : ℤ) (st : List TrackedPerson × List ℤ × ℕ)
    (det : List Keypoint) :
    matchDetection [] ts st det = (st.1 ++ [⟨st.2.2, ts, det⟩], st.2.1, st.2.2 + 1) := by
  unfold matchDetection findBestTrack
  norm_num [TRACKING_MAX_PERSONS]

lemma foldl_matchDetection_empty (ts : ℤ) :
    ∀ (dets : List (List Keypoint)) (tr : List TrackedPerson) (m : List ℤ) (ni : ℕ),
      ((dets.foldl (matchDetection [] ts) (tr, m, ni)).1).length = tr.length + dets.length ∧
      (∀ t ∈ (dets.foldl (matchDetection [] ts) (tr, m, ni)).1, t ∈ tr ∨ t.lastSeen = ts) := by
  intro dets
  induction dets with
  | nil => intro tr m ni; exact ⟨rfl, fun t ht => Or.inl ht⟩
  | cons det rest ih =>
      intro tr m ni
      rw [List.foldl_cons, matchDetection_empty_active]
      obtain ⟨ihl, ihm⟩ := ih (tr ++ [⟨ni, ts, det⟩]) m (ni + 1)
      constructor
      · rw [ihl]
        simp
        omega
      · intro t ht
        rcases ihm t ht with hmem | hts
        · rcases List.mem_append.mp hmem with h | h
          · exact Or.inl h
          · right
            rw [List.mem_singleton.mp h]
        · exact Or.inr hts

lemma activeFilter_all (ts : ℤ) (l : List TrackedPerson)
    (h : ∀ t ∈ l, ts - t.lastSeen < TRACKING_MAX_AGE) : activeFilter ts l = l := by
  induction l with
  | nil => rfl
  | cons t rest ih =>
      unfold activeFilter
      rw [if_pos (h t (List.mem_cons_self t rest))]
      rw [ih fun t' ht' => h t' (List.mem_cons_of_mem t ht')]

lemma procesFrame_initial_len (dets : List (List Keypoint)) (ts : ℤ) :
    (procesFrame dets ts initialTracker).trackedPersons.length = dets.length := by
  unfold procesFrame initialTracker
  dsimp only
  simp only [activeFilter]
  obtain ⟨hlen, hmem⟩ := foldl_matchDetection_empty ts dets [] [] 0
  have hall : ∀ t ∈ (dets.foldl (matchDetection [] ts) ([], [], 0)).1,
      ts - t.lastSeen < TRACKING_MAX_AGE := by
    intro t ht
    rcases hmem t ht with h | h
    · exact absurd h (List.not_mem_nil t)
    · rw [h]
      norm_num [TRACKING_MAX_AGE]
  rw [activeFilter_all ts _ hall, hlen]
  simp

/-- C1 (amended): starting from an empty registry, a single `procesFrame`
call creates one track per detection with no cap applied, whatever the
number of detections: the capacity check compares against the set of tracks
active at frame start, which is empty, so even more than
`TRACKING_MAX_PERSONS` simultaneous detections all receive tracks. -/
theorem procesFrame_empty_registry_no_cap (dets : List (List Keypoint)) (ts : ℤ) :
    (procesFrame dets ts initialTracker).trackedPersons.length = dets.length :=
  procesFrame_initial_len dets ts

/-- Counterexample for C1 as stated: nineteen pairwise-dissimilar detections
(all-zero-confidence poses, OKS 0 < TRACKING_MIN_SIMILARITY) in one frame
from an empty registry yield 19 tracks, not exactly
`TRACKING_MAX_PERSONS` (18) with one dropped. -/
theorem procesFrame_capacity_counterexample :
    (∀ d1 ∈ List.replicate 19 zeroPose, ∀ d2 ∈ List.replicate 19 zeroPose,
      computeOKSSimilarityJS d1 d2 < TRACKING_MIN_SIMILARITY) ∧
    (procesFrame (List.replicate 19 zeroPose) 0 initialTracker).trackedPersons.length = 19 ∧
    (procesFrame (List.replicate 19 zeroPose) 0 initialTracker).trackedPersons.length ≠
      TRACKING_MAX_PERSONS := by
  have hlen : (procesFrame (List.replicate 19 zeroPose) 0 initialTracker).trackedPersons.length = 19 := by
    rw [procesFrame_initial_len]
    simp
  refine ⟨?_, hlen, ?_⟩
  · intro d1 h1 d2 h2
    rw [List.eq_of_mem_replicate h1, List.eq_of_mem_replicate h2]
    rw [computeOKSSimilarityJS_zero_left zeroPose zeroPose zeroPose_low]
    norm_num [TRACKING_MIN_SIMILARITY]
  · rw [hlen]
    norm_num [TRACKING_MAX_PERSONS]

lemma updateTrack_map_id (id : ℤ) (det : List Keypoint) (ts : ℤ) (l : List TrackedPerson) :
    (updateTrack id det ts l).map TrackedPerson.id = l.map TrackedPerson.id := by
  induction l with
  | nil => rfl
  | cons t r ih =>
      simp only [updateTrack, List.map_cons] at ih ⊢
      rw [ih]
      congr 1
      split_ifs <;> rfl

lemma mem_activeFilter (ts : ℤ) (l : List TrackedPerson) (t : TrackedPerson) :
    t ∈ activeFilter ts l → t ∈ l ∧ ts - t.lastSeen < TRACKING_MAX_AGE := by
  induction l with
  | nil => intro h; exact absurd h (List.not_mem_nil t)
  | cons u r ih =>
      intro h
      unfold activeFilter at h
      by_cases hc : ts - u.lastSeen < TRACKING_MAX_AGE
      · rw [if_pos hc] at h
        rcases List.mem_cons.mp h with rfl | h'
        · exact ⟨List.mem_cons_self t r, hc⟩
        · obtain ⟨hm, ha⟩ := ih h'
          exact ⟨List.mem_cons_of_mem u hm, ha⟩
      · rw [if_neg hc] at h
        obtain ⟨hm, ha⟩ := ih h
        exact ⟨List.mem_cons_of_mem u hm, ha⟩

lemma activeFilter_map_id_sublist (ts : ℤ) (l : List TrackedPerson) :
    ((activeFilter ts l).map TrackedPerson.id).Sublist (l.map TrackedPerson.id) := by
  induction l with
  | nil => simp [activeFilter]
  | cons u r ih =>
      unfold activeFilter
      split_ifs with hc
      · simpa using List.Sublist.cons₂ u.id ih
      · simpa using List.Sublist.cons u.id ih

lemma matchDetection_inv (active : List TrackedPerson) (ts : ℤ)
    (st : List TrackedPerson × List ℤ × ℕ) (det : List Keypoint)
    (hnd : (st.1.map TrackedPerson.id).Nodup) (hb : ∀ t ∈ st.1, t.id < st.2.2) :
    ((matchDetection active ts st det).1.map TrackedPerson.id).Nodup ∧
    (∀ t ∈ (matchDetection active ts st det).1, t.id < (matchDetection active ts st det).2.2) ∧
    st.2.2 ≤ (matchDetection active ts st det).2.2 ∧
    (∀ a ∈ (matchDetection active ts st det).1.map TrackedPerson.id,
      a ∈ st.1.map TrackedPerson.id ∨ st.2.2 ≤ a) := by
  unfold matchDetection
  dsimp only
  split_ifs with hpos hcap
  · cases hlk : lookupTrack (findBestTrack det st.2.1 active).1 st.1 with
    | none => exact ⟨hnd, hb, le_refl _, fun a ha => Or.inl ha⟩
    | some t0 =>
        dsimp only
        rw [updateTrack_map_id]
        refine ⟨hnd, ?_, le_refl _, fun a ha => Or.inl ha⟩
        intro t ht
        have hid : t.id ∈ st.1.map TrackedPerson.id := by
          rw [← updateTrack_map_id (findBestTrack det st.2.1 active).1 det ts st.1]
          exact List.mem_map_of_mem TrackedPerson.id ht
        obtain ⟨t1, ht1, he⟩ := List.mem_map.mp hid
        rw [← he]
        exact hb t1 ht1
  · dsimp only
    refine ⟨?_, ?_, Nat.le_succ _, ?_⟩
    · rw [List.map_append]
      rw [List.nodup_append]
      refine ⟨hnd, List.nodup_singleton _, ?_⟩
      intro a ha hb'
      simp only [List.map_cons, List.map_nil, List.mem_singleton] at hb'
      obtain ⟨t1, ht1, he⟩ := List.mem_map.mp ha
      have hlt := hb t1 ht1
      rw [he, hb'] at hlt
      exact lt_irrefl _ hlt
    · intro t ht
      rcases List.mem_append.mp ht with h | h
      · exact lt_trans (hb t h) (Nat.lt_succ_self _)
      · rw [List.mem_singleton.mp h]
        exact Nat.lt_succ_self _
    · intro a ha
      rw [List.map_append] at ha
      rcases List.mem_append.mp ha with h | h
      · exact Or.inl h
      · simp only [List.map_cons, List.map_nil, List.mem_singleton] at h
        rw [h]
        exact Or.inr (le_refl _)
  · exact ⟨hnd, hb, le_refl _, fun a ha => Or.inl ha⟩

lemma foldl_matchDetection_inv (active : List TrackedPerson) (ts : ℤ) :
    ∀ (dets : List (List Keypoint)) (tr : List TrackedPerson) (m : List ℤ) (ni : ℕ),
      (tr.map TrackedPerson.id).Nodup → (∀ t ∈ tr, t.id < ni) →
      (((dets.foldl (matchDetection active ts) (tr, m, ni)).1.map TrackedPerson.id).Nodup ∧
      (∀ t ∈ (dets.foldl (matchDetection active ts) (tr, m, ni)).1,
        t.id < (dets.foldl (matchDetection active ts) (tr, m, ni)).2.2) ∧
      ni ≤ (dets.foldl (matchDetection active ts) (tr, m, ni)).2.2 ∧
      (∀ a ∈ (dets.foldl (matchDetection active ts) (tr, m, ni)).1.map TrackedPerson.id,
        a ∈ tr.map TrackedPerson.id ∨ ni ≤ a)) := by
  intro dets
  induction dets with
  | nil => intro tr m ni hnd hb; exact ⟨hnd, hb, le_refl _, fun a ha => Or.inl ha⟩
  | cons det rest ih =>
      intro tr m ni hnd hb
      rw [List.foldl_cons]
      obtain ⟨hnd1, hb1, hni1, hsub1⟩ := matchDetection_inv active ts (tr, m, ni) det hnd hb
      obtain ⟨hnd2, hb2, hni2, hsub2⟩ :=
        ih (matchDetection active ts (tr, m, ni) det).1
          (matchDetection active ts (tr, m, ni) det).2.1
          (matchDetection active ts (tr, m, ni) det).2.2 hnd1 hb1
      refine ⟨hnd2, hb2, le_trans hni1 hni2, ?_⟩
      intro a ha
      rcases hsub2 a ha with h | h
      · rcases hsub1 a h with h' | h'
        · exact Or.inl h'
        · exact Or.inr h'
      · exact Or.inr (le_trans hni1 h)

lemma procesFrame_inv (d : List (List Keypoint)) (ts : ℤ) (s : TrackerState)
    (hnd : (s.trackedPersons.map TrackedPerson.id).Nodup)
    (hb : ∀ t ∈ s.trackedPersons, t.id < s.nextPersonId) :
    (∀ t ∈ (procesFrame d ts s).trackedPersons, ts - t.lastSeen < TRACKING_MAX_AGE) ∧
    (((procesFrame d ts s).trackedPersons.map TrackedPerson.id).Nodup) ∧
    (∀ t ∈ (procesFrame d ts s).trackedPersons, t.id < (procesFrame d ts s).nextPersonId) ∧
    s.nextPersonId ≤ (procesFrame d ts s).nextPersonId ∧
    (∀ t ∈ (procesFrame d ts s).trackedPersons,
      t.id ∈ s.trackedPersons.map TrackedPerson.id ∨ s.nextPersonId ≤ t.id) := by
  obtain ⟨hnd1, hb1, hni1, hsub1⟩ :=
    foldl_matchDetection_inv (activeFilter ts s.trackedPersons) ts d s.trackedPersons [] s.nextPersonId hnd hb
  unfold procesFrame
  dsimp only
  refine ⟨?_, ?_, ?_, hni1, ?_⟩
  · intro t ht
    exact (mem_activeFilter ts _ t ht).2
  · exact List.Sublist.nodup (activeFilter_map_id_sublist ts _) hnd1
  · intro t ht
    exact hb1 t (mem_activeFilter ts _ t ht).1
  · intro t ht
    have hm := (mem_activeFilter ts _ t ht).1
    exact hsub1 t.id (List.mem_map_of_mem TrackedPerson.id hm)

lemma trackerRun_inv (frames : List (List (List Keypoint) × ℤ)) :
    ((trackerRun frames).trackedPersons.map TrackedPerson.id).Nodup ∧
    (∀ t ∈ (trackerRun frames).trackedPersons, t.id < (trackerRun frames).nextPersonId) := by
  have hgen : ∀ (fs : List (List (List Keypoint) × ℤ)) (s : TrackerState),
      (s.trackedPersons.map TrackedPerson.id).Nodup →
      (∀ t ∈ s.trackedPersons, t.id < s.nextPersonId) →
      (((fs.foldl (fun s' f => procesFrame f.1 f.2 s') s).trackedPersons.map TrackedPerson.id).Nodup ∧
      (∀ t ∈ (fs.foldl (fun s' f => procesFrame f.1 f.2 s') s).trackedPersons,
        t.id < (fs.foldl (fun s' f => procesFrame f.1 f.2 s') s).nextPersonId)) := by
    intro fs
    induction fs with
    | nil => intro s h1 h2; exact ⟨h1, h2⟩
    | cons f rest ih =>
        intro s h1 h2
        rw [List.foldl_cons]
        obtain ⟨_, hnd, hb, _, _⟩ := procesFrame_inv f.1 f.2 s h1 h2
        exact ih (procesFrame f.1 f.2 s) hnd hb
  exact hgen frames initialTracker (by simp [initialTracker]) (by simp [initialTracker])

/-- C7: after any additional frame on any reachable tracker state (a run
without reset): every surviving track was matched less than
`TRACKING_MAX_AGE` before the frame timestamp; `nextPersonId` never
decreases; live ids are pairwise distinct and all below `nextPersonId`; and
any track that was not live before the frame carries an id at least the
pre-frame `nextPersonId` - hence ids of destroyed tracks are never reused
and every newly allocated id exceeds all previously allocated ones. -/
theorem tracker_age_and_id_invariants (frames : List (List (List Keypoint) × ℤ))
    (d : List (List Keypoint)) (ts : ℤ) :
    (∀ t ∈ (procesFrame d ts (trackerRun frames)).trackedPersons,
      ts - t.lastSeen < TRACKING_MAX_AGE) ∧
    (((procesFrame d ts (trackerRun frames)).trackedPersons.map TrackedPerson.id).Nodup) ∧
    (∀ t ∈ (procesFrame d ts (trackerRun frames)).trackedPersons,
      t.id < (procesFrame d ts (trackerRun frames)).nextPersonId) ∧
    (trackerRun frames).nextPersonId ≤ (procesFrame d ts (trackerRun frames)).nextPersonId ∧
    (∀ t ∈ (procesFrame d ts (trackerRun frames)).trackedPersons,
      t.id ∈ (trackerRun frames).trackedPersons.map TrackedPerson.id ∨
        (trackerRun frames).nextPersonId ≤ t.id) := by
  obtain ⟨hnd, hb⟩ := trackerRun_inv frames
  exact procesFrame_inv d ts (trackerRun frames) hnd hb

/-- Witness for C7: one frame at time 0 creates track 0; a dissimilar
detection at time 500 creates track 1 while track 0 survives; the
invariants hold at the surviving track 1. -/
theorem tracker_age_and_id_invariants_witness :
    (⟨1, 500, zeroPose⟩ : TrackedPerson) ∈
      (procesFrame [zeroPose] 500 (trackerRun [([zeroPose], 0)])).trackedPersons ∧
    (500:ℤ) - (⟨1, 500, zeroPose⟩ : TrackedPerson).lastSeen < TRACKING_MAX_AGE ∧
    (⟨1, 500, zeroPose⟩ : TrackedPerson).id <
      (procesFrame [zeroPose] 500 (trackerRun [([zeroPose], 0)])).nextPersonId := by
  have hz : computeOKSSimilarityJS zeroPose zeroPose = 0 :=
    computeOKSSimilarityJS_zero_left zeroPose zeroPose zeroPose_low
  have hs : (procesFrame [zeroPose] 500 (trackerRun [([zeroPose], 0)])).trackedPersons =
      [⟨0, 0, zeroPose⟩, ⟨1, 500, zeroPose⟩] := by
    norm_num [trackerRun, procesFrame, initialTracker, activeFilter, matchDetection,
      findBestTrack, lookupTrack, updateTrack, hz, TRACKING_MAX_AGE, TRACKING_MAX_PERSONS,
      TRACKING_MIN_SIMILARITY]
  have hmem : (⟨1, 500, zeroPose⟩ : TrackedPerson) ∈
      (procesFrame [zeroPose] 500 (trackerRun [([zeroPose], 0)])).trackedPersons := by
    rw [hs]
    simp
  exact ⟨hmem,
    (tracker_age_and_id_invariants [([zeroPose], 0)] [zeroPose] 500).1 _ hmem,
    (tracker_age_and_id_invariants [([zeroPose], 0)] [zeroPose] 500).2.2.1 _ hmem⟩

end Vision

end
